import Mathlib

/-!
Verification of the engram-db storage core: the Mnemo log engine
(src/src/mnemo.rs) and the EngramDB store facade (src/engram-open/src/lib.rs),
shallowly embedded over lists of bytes.

Modelling conventions:
- a byte is a Nat (meaningful values are below 256); a file is a List Nat;
- Rust u16/u32/u64 little-endian encode/decode are explicit functions;
- f32 vector entries are modelled by their 32-bit little-endian bit patterns
  (to_le_bytes / from_le_bytes are mutually inverse at the bit level);
- a String is modelled by its UTF-8 bytes; the metadata map is modelled by its
  serde_json byte serialization;
- Rust slice indexing out of range (a panic) is modelled by an explicit crash
  outcome; anyhow errors propagated with the question-mark operator are an
  explicit err outcome.
-/

namespace Engram

/-- Little-endian bytes of the low 16 bits of a Nat (u16 to_le_bytes). -/
def u16le (n : Nat) : List Nat := [n % 256, n / 256 % 256]

/-- Little-endian bytes of the low 32 bits of a Nat (u32 to_le_bytes, and the
truncating cast written as-u32 composed with to_le_bytes). -/
def u32le (n : Nat) : List Nat :=
  [n % 256, n / 256 % 256, n / 65536 % 256, n / 16777216 % 256]

/-- Little-endian bytes of the low 64 bits of a Nat (u64 to_le_bytes). -/
def u64le (n : Nat) : List Nat :=
  [n % 256, n / 256 % 256, n / 65536 % 256, n / 16777216 % 256,
   n / 4294967296 % 256, n / 1099511627776 % 256,
   n / 281474976710656 % 256, n / 72057594037927936 % 256]

/-- Little-endian decode of two bytes (u16 from_le_bytes). -/
def leU16 (b : List Nat) : Nat := b.getD 0 0 + 256 * b.getD 1 0

/-- Little-endian decode of four bytes (u32 from_le_bytes). -/
def leU32 (b : List Nat) : Nat :=
  b.getD 0 0 + 256 * b.getD 1 0 + 65536 * b.getD 2 0 + 16777216 * b.getD 3 0

/-- Little-endian decode of eight bytes (u64 from_le_bytes). -/
def leU64 (b : List Nat) : Nat :=
  b.getD 0 0 + 256 * b.getD 1 0 + 65536 * b.getD 2 0 + 16777216 * b.getD 3 0 +
  4294967296 * b.getD 4 0 + 1099511627776 * b.getD 5 0 +
  281474976710656 * b.getD 6 0 + 72057594037927936 * b.getD 7 0

/-- Rust slice of a byte buffer, buf[i..i+n]: some slice when in range,
none when the range escapes the buffer (in Rust: a panic). -/
def getRange (l : List Nat) (i n : Nat) : Option (List Nat) :=
  if i + n ≤ l.length then some ((l.drop i).take n) else none

/-- Rust single-byte index buf[i]: the one-byte slice, out of range is a
panic. -/
def readByteAt (l : List Nat) (i : Nat) : Option Nat :=
  (getRange l i 1).map (fun b => b.getD 0 0)

/-- Magic bytes MNMO (mnemo.rs line 20). -/
def MAGIC_BYTES : List Nat := [0x4D, 0x4E, 0x4D, 0x4F]

/-- Sync marker 0xFA 0xFA 0xFA 0xFA (mnemo.rs line 21). -/
def SYNC_MARKER : List Nat := [0xFA, 0xFA, 0xFA, 0xFA]

def HEADER_SIZE : Nat := 64

def CURRENT_VERSION : Nat := 3

def FLAG_HAS_TTL : Nat := 1

def FLAG_HAS_METADATA : Nat := 2

/-- The Rust test flags & bit != 0. -/
def hasFlag (flags bit : Nat) : Bool := flags &&& bit != 0

/-- One shift-xor round of the bitwise CRC-32 (polynomial 0xEDB88320). -/
def crc32Round (c : Nat) : Nat :=
  if c % 2 = 1 then (c / 2) ^^^ 0xEDB88320 else c / 2

/-- Fold one input byte into the running CRC-32 state. -/
def crc32Byte (crc b : Nat) : Nat :=
  (List.range 8).foldl (fun c _ => crc32Round c) (crc ^^^ (b % 256))

/-- CRC-32 (IEEE) of a byte list, as computed by the crc32fast Hasher used at
mnemo.rs lines 145-147. -/
def crc32 (data : List Nat) : Nat :=
  (data.foldl crc32Byte 0xFFFFFFFF) ^^^ 0xFFFFFFFF

/-- UTF-8 continuation byte. -/
def isCont (b : Nat) : Bool := 0x80 ≤ b && b ≤ 0xBF

/-- UTF-8 validity of a byte list: the success condition of Rust
str::from_utf8 (mnemo.rs line 215). -/
def isValidUtf8 : List Nat → Bool
  | [] => true
  | b :: rest =>
    if b ≤ 0x7F then isValidUtf8 rest
    else if 0xC2 ≤ b && b ≤ 0xDF then
      match rest with
      | c1 :: r => isCont c1 && isValidUtf8 r
      | [] => false
    else if b = 0xE0 then
      match rest with
      | c1 :: c2 :: r =>
        (0xA0 ≤ c1 && c1 ≤ 0xBF) && isCont c2 && isValidUtf8 r
      | _ => false
    else if (0xE1 ≤ b && b ≤ 0xEC) || b = 0xEE || b = 0xEF then
      match rest with
      | c1 :: c2 :: r => isCont c1 && isCont c2 && isValidUtf8 r
      | _ => false
    else if b = 0xED then
      match rest with
      | c1 :: c2 :: r =>
        (0x80 ≤ c1 && c1 ≤ 0x9F) && isCont c2 && isValidUtf8 r
      | _ => false
    else if b = 0xF0 then
      match rest with
      | c1 :: c2 :: c3 :: r =>
        (0x90 ≤ c1 && c1 ≤ 0xBF) && isCont c2 && isCont c3 && isValidUtf8 r
      | _ => false
    else if 0xF1 ≤ b && b ≤ 0xF3 then
      match rest with
      | c1 :: c2 :: c3 :: r =>
        isCont c1 && isCont c2 && isCont c3 && isValidUtf8 r
      | _ => false
    else if b = 0xF4 then
      match rest with
      | c1 :: c2 :: c3 :: r =>
        (0x80 ≤ c1 && c1 ≤ 0x8F) && isCont c2 && isCont c3 && isValidUtf8 r
      | _ => false
    else false

/-- JSON whitespace byte. -/
def isWs (b : Nat) : Bool := b = 0x20 || b = 0x09 || b = 0x0A || b = 0x0D

/-- Drop leading JSON whitespace. -/
def skipWs : List Nat → List Nat
  | [] => []
  | b :: r => if isWs b then skipWs r else b :: r

/-- Hexadecimal digit byte. -/
def isHexDigit (b : Nat) : Bool :=
  (0x30 ≤ b && b ≤ 0x39) || (0x41 ≤ b && b ≤ 0x46) || (0x61 ≤ b && b ≤ 0x66)

/-- Consume the body of a JSON string after its opening quote, up to and
including the closing quote; none when the string is unterminated, holds a
bare control character, or a bad escape. -/
def chompString : List Nat → Option (List Nat)
  | [] => none
  | b :: r =>
    if b = 0x22 then some r
    else if b = 0x5C then
      match r with
      | e :: r2 =>
        if e = 0x22 || e = 0x5C || e = 0x2F || e = 0x62 || e = 0x66 ||
            e = 0x6E || e = 0x72 || e = 0x74 then chompString r2
        else if e = 0x75 then
          match r2 with
          | h1 :: h2 :: h3 :: h4 :: r3 =>
            if isHexDigit h1 && isHexDigit h2 && isHexDigit h3 && isHexDigit h4
            then chompString r3 else none
          | _ => none
        else none
      | [] => none
    else if b < 0x20 then none
    else chompString r

/-- Consume one key-colon-value member where key and value are JSON strings. -/
def chompPair (l : List Nat) : Option (List Nat) :=
  match skipWs l with
  | b :: r =>
    if b = 0x22 then
      match chompString r with
      | some r2 =>
        match skipWs r2 with
        | c :: r3 =>
          if c = 0x3A then
            match skipWs r3 with
            | d :: r4 => if d = 0x22 then chompString r4 else none
            | [] => none
          else none
        | [] => none
      | none => none
    else none
  | [] => none

/-- Consume a comma-separated sequence of string-to-string members, returning
the unconsumed remainder (which should start at the closing brace). -/
def chompMembers : Nat → List Nat → Option (List Nat)
  | 0, _ => none
  | fuel + 1, l =>
    match chompPair l with
    | none => none
    | some r =>
      match skipWs r with
      | b :: r2 =>
        if b = 0x2C then chompMembers fuel r2
        else some (b :: r2)
      | [] => some []

/-- Success condition of serde_json from_slice for a map from String to
String (mnemo.rs line 209): the whole input is one JSON object whose keys and
values are strings.  Escape and unicode fine points of serde_json are
approximated; the claims only need concrete inputs on both sides of the
predicate. -/
def isJsonStrMap (l : List Nat) : Bool :=
  match skipWs l with
  | b :: r =>
    if b = 0x7B then
      match skipWs r with
      | c :: r2 =>
        if c = 0x7D then (skipWs r2).isEmpty
        else
          match chompMembers l.length (c :: r2) with
          | some rest =>
            match skipWs rest with
            | d :: r3 => d = 0x7D && (skipWs r3).isEmpty
            | [] => false
          | none => false
      | [] => false
    else false
  | [] => false

/-- The in-memory record, mirroring struct MnemoRecord (mnemo.rs lines
10-18): content as UTF-8 bytes, vector entries as f32 bit patterns, metadata
as its serde_json byte serialization. -/
structure MnemoRecord where
  id : Nat
  content : List Nat
  vector : List Nat
  timestamp : Nat
  ttl : Option Nat
  metadata : Option (List Nat)
  deriving Repr, DecidableEq

/-- The Offset Index, modelling HashMap u64 u64 (id to record start offset). -/
abbrev Index := List (Nat × Nat)

/-- HashMap insert: replaces any existing binding of the key. -/
def idxInsert (idx : Index) (k v : Nat) : Index :=
  (k, v) :: idx.filter (fun p => p.1 != k)

/-- HashMap get. -/
def idxLookup (idx : Index) (k : Nat) : Option Nat :=
  (idx.find? (fun p => p.1 == k)).map (fun p => p.2)

/-- Flags byte written by append (mnemo.rs lines 104-106). -/
def flagsOf (ttl : Option Nat) (meta : Option (List Nat)) : Nat :=
  (if ttl.isSome then FLAG_HAS_TTL else 0) +
  (if meta.isSome then FLAG_HAS_METADATA else 0)

/-- Optional ttl field bytes. -/
def ttlField : Option Nat → List Nat
  | some t => u64le t
  | none => []

/-- Optional metadata field bytes: length prefix then the serialized map. -/
def metaField : Option (List Nat) → List Nat
  | some m => u32le m.length ++ m
  | none => []

/-- The exact byte sequence append_with_vector writes for one record
(mnemo.rs lines 113-148), with the checksum value as a parameter. -/
def serRecord (id ts : Nat) (ttl : Option Nat) (meta : Option (List Nat))
    (content vector : List Nat) (crc : Nat) : List Nat :=
  SYNC_MARKER ++ u64le id ++ [flagsOf ttl meta] ++ u64le ts ++
    ttlField ttl ++ metaField meta ++
    u32le content.length ++ content ++
    u32le vector.length ++ (vector.map u32le).flatten ++
    u32le crc

/-- The caller-supplied part of one append: content bytes, vector bit
patterns, serialized metadata, ttl, and the captured timestamp. -/
structure RecInput where
  content : List Nat
  vector : List Nat
  metaBytes : Option (List Nat)
  ttl : Option Nat
  timestamp : Nat
  deriving Repr, DecidableEq

/-- Record bytes for an input at a given id and checksum. -/
def serOfInput (id : Nat) (inp : RecInput) (crc : Nat) : List Nat :=
  serRecord id inp.timestamp inp.ttl inp.metaBytes inp.content inp.vector crc

/-- The persistent engine state: file bytes, Offset Index, last assigned id
(struct MnemoEngine, mnemo.rs lines 29-36; the read mapping and vector cache
carry no persistent information and are dropped from the model). -/
structure EngineState where
  file : List Nat
  index : Index
  lastId : Nat
  deriving Repr, DecidableEq

/-- append_with_vector (mnemo.rs lines 96-157): assign id equal to last_id
plus one, write the serialized record at end of file, insert the offset,
advance last_id, return the id. -/
def appendWithVector (st : EngineState) (inp : RecInput) : Nat × EngineState :=
  let id := st.lastId + 1
  let off := st.file.length
  let bytes := serOfInput id inp (crc32 inp.content)
  (id, ⟨st.file ++ bytes, idxInsert st.index id off, id⟩)

/-- A sequence of appends, collecting the returned ids. -/
def appendAll : EngineState → List RecInput → List Nat × EngineState
  | st, [] => ([], st)
  | st, inp :: rest =>
    let p := appendWithVector st inp
    let q := appendAll p.2 rest
    (p.1 :: q.1, q.2)

/-- Result of the recovery scan: the recovered index and last id, or a crash
(a Rust out-of-bounds slice panic inside scan_records). -/
inductive ScanResult where
  | ok (index : Index) (lastId : Nat)
  | crash
  deriving Repr, DecidableEq

/-- Decode step of scan_records at a position whose four bytes matched the
sync marker (mnemo.rs lines 246-274): read the embedded id, then walk the
length fields to compute the next position.  none models the Rust panic when
a length field read falls outside the buffer. -/
def scanStep (buffer : List Nat) (pos : Nat) : Option (Nat × Nat) := do
  let idB ← getRange buffer (pos + 4) 8
  let flags ← readByteAt buffer (pos + 12)
  let t := if hasFlag flags FLAG_HAS_TTL then 8 else 0
  let m ←
    if hasFlag flags FLAG_HAS_METADATA then do
      let mlenB ← getRange buffer (pos + 21 + t) 4
      pure (4 + leU32 mlenB)
    else pure 0
  let clenB ← getRange buffer (pos + 21 + t + m) 4
  let vlenB ← getRange buffer (pos + 21 + t + m + 4 + leU32 clenB) 4
  pure (leU64 idB, t + m + leU32 clenB + leU32 vlenB * 4)

/-- The walk of scan_records (mnemo.rs lines 243-278): while at least 17
bytes remain, either decode a record at a sync marker and jump past it (the
source's final inner_pos is pos + 33 + extra, with 33 the fixed field bytes
4+8+1+8+4+4+4 and extra the ttl, metadata, content and vector bytes), or
advance one byte. -/
def scanLoop (buffer : List Nat) (pos : Nat) (index : Index) (lastId : Nat) :
    ScanResult :=
  if h : pos + 17 ≤ buffer.length then
    if getRange buffer pos 4 = some SYNC_MARKER then
      match scanStep buffer pos with
      | none => .crash
      | some (id, extra) =>
        scanLoop buffer (pos + 33 + extra) (idxInsert index id (HEADER_SIZE + pos))
          (if id > lastId then id else lastId)
    else scanLoop buffer (pos + 1) index lastId
  else .ok index lastId
termination_by buffer.length - pos
decreasing_by
  · omega
  · omega

/-- scan_records (mnemo.rs lines 233-281): walk the body read from offset 64.
The version argument is accepted and ignored, as in the source. -/
def scanRecords (version : Nat) (body : List Nat) : ScanResult :=
  scanLoop body 0 [] 0

/-- The fresh 64-byte header written on (re)initialization (mnemo.rs lines
62-68): magic, current version little-endian, 58 zero bytes. -/
def freshHeader : List Nat :=
  MAGIC_BYTES ++ u16le CURRENT_VERSION ++ List.replicate 58 0

/-- Result of MnemoEngine::new. -/
inductive OpenResult where
  | ok (st : EngineState)
  | crash
  deriving Repr, DecidableEq

/-- MnemoEngine::new (mnemo.rs lines 39-94) as a function of the existing
file bytes: when the file is at least header-sized and carries the magic,
read the version and scan the body from offset 64; otherwise truncate and
write a fresh header. -/
def mnemoNew (fileContent : List Nat) : OpenResult :=
  if HEADER_SIZE ≤ fileContent.length ∧ fileContent.take 4 = MAGIC_BYTES then
    match scanRecords (leU16 ((fileContent.drop 4).take 2))
        (fileContent.drop HEADER_SIZE) with
    | .ok idx lastId => .ok ⟨fileContent, idx, lastId⟩
    | .crash => .crash
  else .ok ⟨freshHeader, [], 0⟩

/-- count (lib.rs line 144): size of the Offset Index. -/
def count (st : EngineState) : Nat := st.index.length

/-- Outcome algebra of read_record: a found record, Ok None, a propagated
anyhow error (the question-mark operator on serde_json or str::from_utf8),
or a panic. -/
inductive Parse (α : Type) where
  | ok (a : α)
  | notFound
  | err
  | crash
  deriving Repr, DecidableEq

instance : Monad Parse where
  pure := Parse.ok
  bind m f :=
    match m with
    | .ok a => f a
    | .notFound => .notFound
    | .err => .err
    | .crash => .crash

/-- A Rust slice read inside read_record: out of range is a panic. -/
def liftSlice : Option α → Parse α
  | some a => .ok a
  | none => .crash

/-- Element-wise read of the vector field (mnemo.rs lines 221-225): vlen
four-byte reads. -/
def readVec (file : List Nat) (pos : Nat) : Nat → Option (List Nat)
  | 0 => some []
  | n + 1 => do
    let b ← getRange file pos 4
    let rest ← readVec file (pos + 4) n
    pure (leU32 b :: rest)

/-- The in-place parse of read_record at a looked-up offset (mnemo.rs lines
176-227). -/
def readRecordP (file : List Nat) (off id : Nat) : Parse MnemoRecord := do
  let sy ← liftSlice (getRange file off 4)
  if sy ≠ SYNC_MARKER then Parse.notFound else
  let idB ← liftSlice (getRange file (off + 4) 8)
  if leU64 idB ≠ id then Parse.notFound else
  let flags ← liftSlice (readByteAt file (off + 12))
  let tsB ← liftSlice (getRange file (off + 13) 8)
  let tp ←
    if hasFlag flags FLAG_HAS_TTL then do
      let tB ← liftSlice (getRange file (off + 21) 8)
      pure (some (leU64 tB), off + 29)
    else pure ((none : Option Nat), off + 21)
  let mp ←
    if hasFlag flags FLAG_HAS_METADATA then do
      let mlenB ← liftSlice (getRange file tp.2 4)
      let mB ← liftSlice (getRange file (tp.2 + 4) (leU32 mlenB))
      if isJsonStrMap mB then pure (some mB, tp.2 + 4 + leU32 mlenB)
      else Parse.err
    else pure ((none : Option (List Nat)), tp.2)
  let clenB ← liftSlice (getRange file mp.2 4)
  let cB ← liftSlice (getRange file (mp.2 + 4) (leU32 clenB))
  if ¬ isValidUtf8 cB then Parse.err else
  let p3 := mp.2 + 4 + leU32 clenB
  let vlenB ← liftSlice (getRange file p3 4)
  let vec ← liftSlice (readVec file (p3 + 4) (leU32 vlenB))
  pure ⟨id, cB, vec, leU64 tsB, tp.1, mp.1⟩

/-- read_record (mnemo.rs lines 159-231): look the id up in the Offset
Index (absent is Ok None), then parse in place from the mapping.  The mapping
refresh only re-exposes the current file bytes, which the model reads
directly. -/
def readRecord (file : List Nat) (index : Index) (id : Nat) :
    Parse MnemoRecord :=
  match idxLookup index id with
  | none => Parse.notFound
  | some off => readRecordP file off id

/-- Error kinds surfaced by the Python binding (lib.rs): read errors map to
PyRuntimeError; ArgumentError is the taxonomy kind the spec names for a
rejected argument, listed so the statements can speak about it. -/
inductive PyErrKind where
  | argumentError
  | runtimeError
  deriving Repr, DecidableEq

/-- Result of a facade query: the emitted pairs, a surfaced error, or a
panic inside read_record. -/
inductive FacadeOutcome where
  | ok (results : List (List Nat × Option (List Nat)))
  | error (e : PyErrKind)
  | crash
  deriving Repr, DecidableEq

/-- The shared result loop of recall and search_raw (lib.rs lines 76-84 and
125-131): for each id from the ANN search in order, read the record and, when
found, emit its content and metadata; a read error is surfaced as a runtime
error. -/
def emitLoop (file : List Nat) (index : Index) :
    List Nat → List (List Nat × Option (List Nat)) → FacadeOutcome
  | [], acc => .ok acc
  | id :: rest, acc =>
    match readRecord file index id with
    | .ok r => emitLoop file index rest (acc ++ [(r.content, r.metadata)])
    | .notFound => emitLoop file index rest acc
    | .err => .error .runtimeError
    | .crash => .crash

/-- search_raw (lib.rs lines 119-133): the caller-provided vector is passed
to the ANN search with ef 100 as is; the source performs no dimension check.
The ANN search itself is the external hnsw library, abstracted as a function
from query vector, neighbor count and ef to an id list. -/
def searchRaw (annSearch : List Nat → Nat → Nat → List Nat)
    (st : EngineState) (queryVector : List Nat) (limit : Nat) :
    FacadeOutcome :=
  emitLoop st.file st.index (annSearch queryVector limit 100) []

/-- recall (lib.rs lines 69-85): embed the query, search the ANN index with
ef 100, then emit pairs in the order the search returned.  The embedder and
the ANN search are the external models, abstracted as functions. -/
def recallQuery (embed : List Nat → List Nat)
    (annSearch : List Nat → Nat → Nat → List Nat)
    (st : EngineState) (query : List Nat) (k : Nat) : FacadeOutcome :=
  emitLoop st.file st.index (annSearch (embed query) k 100) []

/-- Well-formedness of one append input: the sizes fit the u32/u64 fields
the format stores them in, the content is the UTF-8 encoding of a Rust
String, the metadata bytes are a serde_json serialization of a map, and the
vector entries are 32-bit patterns. -/
def wfInput (inp : RecInput) : Bool :=
  inp.content.length < 4294967296 && inp.vector.length < 4294967296 &&
  (match inp.metaBytes with
   | some m => m.length < 4294967296 && isJsonStrMap m
   | none => true) &&
  isValidUtf8 inp.content &&
  inp.vector.all (fun x => x < 4294967296) &&
  (match inp.ttl with
   | some t => t < 18446744073709551616
   | none => true) &&
  inp.timestamp < 18446744073709551616

/-! ## Basic length and decode lemmas -/

@[simp] theorem u16le_length (n : Nat) : (u16le n).length = 2 := rfl

@[simp] theorem u32le_length (n : Nat) : (u32le n).length = 4 := rfl

@[simp] theorem u64le_length (n : Nat) : (u64le n).length = 8 := rfl

@[simp] theorem SYNC_MARKER_length : SYNC_MARKER.length = 4 := rfl

@[simp] theorem MAGIC_BYTES_length : MAGIC_BYTES.length = 4 := rfl

theorem leU16_u16le (n : Nat) (h : n < 65536) : leU16 (u16le n) = n := by
  simp [u16le, leU16, List.getD]
  omega

theorem leU32_u32le (n : Nat) (h : n < 4294967296) : leU32 (u32le n) = n := by
  simp [u32le, leU32, List.getD]
  omega

theorem leU64_u64le (n : Nat) (h : n < 18446744073709551616) :
    leU64 (u64le n) = n := by
  simp [u64le, leU64, List.getD]
  omega

theorem getRange_exact (pre b post : List Nat) :
    getRange (pre ++ b ++ post) pre.length b.length = some b := by
  unfold getRange
  rw [List.append_assoc, if_pos]
  · rw [List.drop_left, List.take_left]
  · simp only [List.length_append]
    omega

/-- Field extraction: when the buffer decomposes as A, then the field, then
B, the slice at offset A.length of the field's width is exactly the field. -/
theorem getRange_at (l A F B : List Nat) (h : l = A ++ F ++ B) :
    getRange l A.length F.length = some F := by
  subst h
  exact getRange_exact A F B

theorem getRange_none (l : List Nat) (i n : Nat) (h : l.length < i + n) :
    getRange l i n = none := by
  unfold getRange
  rw [if_neg]
  omega

theorem readByteAt_at (l A : List Nat) (b : Nat) (B : List Nat)
    (h : l = A ++ [b] ++ B) : readByteAt l A.length = some b := by
  subst h
  rw [readByteAt]
  have h1 : getRange (A ++ [b] ++ B) A.length 1 = some [b] :=
    getRange_exact A [b] B
  rw [h1]
  rfl

@[simp] theorem flatten_u32le_length (v : List Nat) :
    ((v.map u32le).flatten).length = 4 * v.length := by
  induction v with
  | nil => rfl
  | cons x xs ih =>
    simp only [List.map_cons, List.flatten_cons, List.length_append, ih,
      u32le_length, List.length_cons]
    ring

theorem serRecord_length (id ts : Nat) (ttl : Option Nat)
    (meta : Option (List Nat)) (content vector : List Nat) (crc : Nat) :
    (serRecord id ts ttl meta content vector crc).length =
      33 + (ttlField ttl).length + (metaField meta).length +
        content.length + 4 * vector.length := by
  simp only [serRecord, List.length_append, SYNC_MARKER_length, u64le_length,
    u32le_length, List.length_cons, List.length_nil, flatten_u32le_length]
  omega

@[simp] theorem ttlField_none : ttlField none = [] := rfl

@[simp] theorem ttlField_some (t : Nat) : ttlField (some t) = u64le t := rfl

@[simp] theorem metaField_none : metaField none = [] := rfl

@[simp] theorem metaField_some (m : List Nat) :
    metaField (some m) = u32le m.length ++ m := rfl

theorem hasFlag_ttl (ttl : Option Nat) (meta : Option (List Nat)) :
    hasFlag (flagsOf ttl meta) FLAG_HAS_TTL = ttl.isSome := by
  rcases ttl <;> rcases meta <;>
    simp [hasFlag, flagsOf, FLAG_HAS_TTL, FLAG_HAS_METADATA]

theorem hasFlag_meta (ttl : Option Nat) (meta : Option (List Nat)) :
    hasFlag (flagsOf ttl meta) FLAG_HAS_METADATA = meta.isSome := by
  rcases ttl <;> rcases meta <;>
    simp [hasFlag, flagsOf, FLAG_HAS_TTL, FLAG_HAS_METADATA]

/-! ## Field extraction through chunk decompositions

A record buffer is a flattened list of field chunks followed by a tail; a
slice whose offset is the total length of the chunks before a field and
whose width is the field's length returns exactly that field. -/

theorem getRange_chunks (L chunks₁ chunks₂ : List (List Nat))
    (F post : List Nat) (i n : Nat) (hL : L = chunks₁ ++ [F] ++ chunks₂)
    (hi : i = (chunks₁.flatten).length) (hn : n = F.length) :
    getRange (L.flatten ++ post) i n = some F := by
  rw [hL, hi, hn]
  have h2 : (chunks₁ ++ [F] ++ chunks₂).flatten ++ post =
      chunks₁.flatten ++ F ++ (chunks₂.flatten ++ post) := by
    simp [List.append_assoc]
  rw [h2]
  exact getRange_exact _ _ _

theorem readByteAt_chunks (L chunks₁ chunks₂ : List (List Nat)) (b : Nat)
    (post : List Nat) (i : Nat) (hL : L = chunks₁ ++ [[b]] ++ chunks₂)
    (hi : i = (chunks₁.flatten).length) :
    readByteAt (L.flatten ++ post) i = some b := by
  rw [hL, hi, readByteAt]
  have h2 : (chunks₁ ++ [[b]] ++ chunks₂).flatten ++ post =
      chunks₁.flatten ++ [b] ++ (chunks₂.flatten ++ post) := by
    simp [List.append_assoc]
  rw [h2]
  have h3 := getRange_exact chunks₁.flatten [b] (chunks₂.flatten ++ post)
  simp only [List.length_cons, List.length_nil, Nat.zero_add] at h3
  rw [h3]
  rfl

theorem serRecord_length_ge (id ts : Nat) (ttl : Option Nat)
    (meta : Option (List Nat)) (content vector : List Nat) (crc : Nat) :
    33 ≤ (serRecord id ts ttl meta content vector crc).length := by
  rw [serRecord_length]
  omega

/-- scan_records decode step on one serialized record located at offset
pre.length: returns the record's id and the jump amount that lands exactly
past the record's bytes. -/
theorem scanStep_ser (pre post : List Nat) (id ts : Nat) (ttl : Option Nat)
    (meta : Option (List Nat)) (content vector : List Nat) (crc : Nat)
    (hid : id < 18446744073709551616)
    (hc : content.length < 4294967296) (hv : vector.length < 4294967296)
    (hm : ∀ m, meta = some m → m.length < 4294967296) :
    scanStep (pre ++ serRecord id ts ttl meta content vector crc ++ post)
        pre.length =
      some (id, (serRecord id ts ttl meta content vector crc).length - 33) := by
  rcases ttl with _ | t' <;> rcases meta with _ | m
  · -- ttl absent, metadata absent
    have hb : pre ++ serRecord id ts (none) (none) content vector crc ++ post =
        ([pre, SYNC_MARKER, u64le id, [flagsOf none none], u64le ts, u32le content.length, content, u32le vector.length, (vector.map u32le).flatten, u32le crc]).flatten ++ post := by
      simp [serRecord, List.append_assoc]
    rw [hb]
    have r1 := getRange_chunks [pre, SYNC_MARKER, u64le id, [flagsOf none none], u64le ts, u32le content.length, content, u32le vector.length, (vector.map u32le).flatten, u32le crc]
      [pre, SYNC_MARKER] [[flagsOf none none], u64le ts, u32le content.length, content, u32le vector.length, (vector.map u32le).flatten, u32le crc]
      (u64le id) post (pre.length + 4) 8 rfl (by simp only [List.flatten_cons, List.flatten_nil, List.length_append, List.length_cons, List.length_nil, u64le_length, u32le_length, SYNC_MARKER_length, List.append_nil] <;> omega) (by simp)
    have r2 := readByteAt_chunks [pre, SYNC_MARKER, u64le id, [flagsOf none none], u64le ts, u32le content.length, content, u32le vector.length, (vector.map u32le).flatten, u32le crc]
      [pre, SYNC_MARKER, u64le id] [u64le ts, u32le content.length, content, u32le vector.length, (vector.map u32le).flatten, u32le crc]
      (flagsOf none none) post (pre.length + 12) rfl (by simp only [List.flatten_cons, List.flatten_nil, List.length_append, List.length_cons, List.length_nil, u64le_length, u32le_length, SYNC_MARKER_length, List.append_nil] <;> omega)
    have r4 := getRange_chunks [pre, SYNC_MARKER, u64le id, [flagsOf none none], u64le ts, u32le content.length, content, u32le vector.length, (vector.map u32le).flatten, u32le crc]
      [pre, SYNC_MARKER, u64le id, [flagsOf none none], u64le ts] [content, u32le vector.length, (vector.map u32le).flatten, u32le crc]
      (u32le content.length) post (pre.length + 21 + 0 + 0) 4 rfl (by simp only [List.flatten_cons, List.flatten_nil, List.length_append, List.length_cons, List.length_nil, u64le_length, u32le_length, SYNC_MARKER_length, List.append_nil] <;> omega) (by simp)
    have r5 := getRange_chunks [pre, SYNC_MARKER, u64le id, [flagsOf none none], u64le ts, u32le content.length, content, u32le vector.length, (vector.map u32le).flatten, u32le crc]
      [pre, SYNC_MARKER, u64le id, [flagsOf none none], u64le ts, u32le content.length, content] [(vector.map u32le).flatten, u32le crc]
      (u32le vector.length) post (pre.length + 21 + 0 + 0 + 4 + content.length) 4 rfl (by simp only [List.flatten_cons, List.flatten_nil, List.length_append, List.length_cons, List.length_nil, u64le_length, u32le_length, SYNC_MARKER_length, List.append_nil] <;> omega) (by simp)
    simp only [scanStep, r1, r2, Option.pure_def, Option.bind_eq_bind, Option.some_bind,
      hasFlag_ttl, hasFlag_meta, Option.isSome_none, Option.isSome_some,
      Bool.false_eq_true, if_false, if_true, 
      leU32_u32le content.length hc, r4, r5, leU32_u32le vector.length hv]
    simp only [Option.some.injEq, Prod.mk.injEq]
    refine ⟨leU64_u64le id hid, ?_⟩
    rw [serRecord_length]
    simp only [ttlField_none, ttlField_some, metaField_none, metaField_some,
      List.length_nil, List.length_append, u64le_length, u32le_length]
    omega
  · -- ttl absent, metadata present
    have hb : pre ++ serRecord id ts (none) (some m) content vector crc ++ post =
        ([pre, SYNC_MARKER, u64le id, [flagsOf (none) (some m)], u64le ts, u32le m.length, m, u32le content.length, content, u32le vector.length, (vector.map u32le).flatten, u32le crc]).flatten ++ post := by
      simp [serRecord, List.append_assoc]
    rw [hb]
    have r1 := getRange_chunks [pre, SYNC_MARKER, u64le id, [flagsOf (none) (some m)], u64le ts, u32le m.length, m, u32le content.length, content, u32le vector.length, (vector.map u32le).flatten, u32le crc]
      [pre, SYNC_MARKER] [[flagsOf (none) (some m)], u64le ts, u32le m.length, m, u32le content.length, content, u32le vector.length, (vector.map u32le).flatten, u32le crc]
      (u64le id) post (pre.length + 4) 8 rfl (by simp only [List.flatten_cons, List.flatten_nil, List.length_append, List.length_cons, List.length_nil, u64le_length, u32le_length, SYNC_MARKER_length, List.append_nil] <;> omega) (by simp)
    have r2 := readByteAt_chunks [pre, SYNC_MARKER, u64le id, [flagsOf (none) (some m)], u64le ts, u32le m.length, m, u32le content.length, content, u32le vector.length, (vector.map u32le).flatten, u32le crc]
      [pre, SYNC_MARKER, u64le id] [u64le ts, u32le m.length, m, u32le content.length, content, u32le vector.length, (vector.map u32le).flatten, u32le crc]
      (flagsOf (none) (some m)) post (pre.length + 12) rfl (by simp only [List.flatten_cons, List.flatten_nil, List.length_append, List.length_cons, List.length_nil, u64le_length, u32le_length, SYNC_MARKER_length, List.append_nil] <;> omega)
    have r3 := getRange_chunks [pre, SYNC_MARKER, u64le id, [flagsOf (none) (some m)], u64le ts, u32le m.length, m, u32le content.length, content, u32le vector.length, (vector.map u32le).flatten, u32le crc]
      [pre, SYNC_MARKER, u64le id, [flagsOf (none) (some m)], u64le ts] [m, u32le content.length, content, u32le vector.length, (vector.map u32le).flatten, u32le crc]
      (u32le m.length) post (pre.length + 21 + 0) 4 rfl (by simp only [List.flatten_cons, List.flatten_nil, List.length_append, List.length_cons, List.length_nil, u64le_length, u32le_length, SYNC_MARKER_length, List.append_nil] <;> omega) (by simp)
    have r4 := getRange_chunks [pre, SYNC_MARKER, u64le id, [flagsOf (none) (some m)], u64le ts, u32le m.length, m, u32le content.length, content, u32le vector.length, (vector.map u32le).flatten, u32le crc]
      [pre, SYNC_MARKER, u64le id, [flagsOf (none) (some m)], u64le ts, u32le m.length, m] [content, u32le vector.length, (vector.map u32le).flatten, u32le crc]
      (u32le content.length) post (pre.length + 21 + 0 + (4 + m.length)) 4 rfl (by simp only [List.flatten_cons, List.flatten_nil, List.length_append, List.length_cons, List.length_nil, u64le_length, u32le_length, SYNC_MARKER_length, List.append_nil] <;> omega) (by simp)
    have r5 := getRange_chunks [pre, SYNC_MARKER, u64le id, [flagsOf (none) (some m)], u64le ts, u32le m.length, m, u32le content.length, content, u32le vector.length, (vector.map u32le).flatten, u32le crc]
      [pre, SYNC_MARKER, u64le id, [flagsOf (none) (some m)], u64le ts, u32le m.length, m, u32le content.length, content] [(vector.map u32le).flatten, u32le crc]
      (u32le vector.length) post (pre.length + 21 + 0 + (4 + m.length) + 4 + content.length) 4 rfl (by simp only [List.flatten_cons, List.flatten_nil, List.length_append, List.length_cons, List.length_nil, u64le_length, u32le_length, SYNC_MARKER_length, List.append_nil] <;> omega) (by simp)
    simp only [scanStep, r1, r2, r3, Option.pure_def, Option.bind_eq_bind, Option.some_bind,
      hasFlag_ttl, hasFlag_meta, Option.isSome_none, Option.isSome_some,
      Bool.false_eq_true, if_false, if_true, leU32_u32le m.length (hm m rfl), 
      leU32_u32le content.length hc, r4, r5, leU32_u32le vector.length hv]
    simp only [Option.some.injEq, Prod.mk.injEq]
    refine ⟨leU64_u64le id hid, ?_⟩
    rw [serRecord_length]
    simp only [ttlField_none, ttlField_some, metaField_none, metaField_some,
      List.length_nil, List.length_append, u64le_length, u32le_length]
    omega
  · -- ttl present, metadata absent
    have hb : pre ++ serRecord id ts (some t') (none) content vector crc ++ post =
        ([pre, SYNC_MARKER, u64le id, [flagsOf (some t') (none)], u64le ts, u64le t', u32le content.length, content, u32le vector.length, (vector.map u32le).flatten, u32le crc]).flatten ++ post := by
      simp [serRecord, List.append_assoc]
    rw [hb]
    have r1 := getRange_chunks [pre, SYNC_MARKER, u64le id, [flagsOf (some t') (none)], u64le ts, u64le t', u32le content.length, content, u32le vector.length, (vector.map u32le).flatten, u32le crc]
      [pre, SYNC_MARKER] [[flagsOf (some t') (none)], u64le ts, u64le t', u32le content.length, content, u32le vector.length, (vector.map u32le).flatten, u32le crc]
      (u64le id) post (pre.length + 4) 8 rfl (by simp only [List.flatten_cons, List.flatten_nil, List.length_append, List.length_cons, List.length_nil, u64le_length, u32le_length, SYNC_MARKER_length, List.append_nil] <;> omega) (by simp)
    have r2 := readByteAt_chunks [pre, SYNC_MARKER, u64le id, [flagsOf (some t') (none)], u64le ts, u64le t', u32le content.length, content, u32le vector.length, (vector.map u32le).flatten, u32le crc]
      [pre, SYNC_MARKER, u64le id] [u64le ts, u64le t', u32le content.length, content, u32le vector.length, (vector.map u32le).flatten, u32le crc]
      (flagsOf (some t') (none)) post (pre.length + 12) rfl (by simp only [List.flatten_cons, List.flatten_nil, List.length_append, List.length_cons, List.length_nil, u64le_length, u32le_length, SYNC_MARKER_length, List.append_nil] <;> omega)
    have r4 := getRange_chunks [pre, SYNC_MARKER, u64le id, [flagsOf (some t') (none)], u64le ts, u64le t', u32le content.length, content, u32le vector.length, (vector.map u32le).flatten, u32le crc]
      [pre, SYNC_MARKER, u64le id, [flagsOf (some t') (none)], u64le ts, u64le t'] [content, u32le vector.length, (vector.map u32le).flatten, u32le crc]
      (u32le content.length) post (pre.length + 21 + 8 + 0) 4 rfl (by simp only [List.flatten_cons, List.flatten_nil, List.length_append, List.length_cons, List.length_nil, u64le_length, u32le_length, SYNC_MARKER_length, List.append_nil] <;> omega) (by simp)
    have r5 := getRange_chunks [pre, SYNC_MARKER, u64le id, [flagsOf (some t') (none)], u64le ts, u64le t', u32le content.length, content, u32le vector.length, (vector.map u32le).flatten, u32le crc]
      [pre, SYNC_MARKER, u64le id, [flagsOf (some t') (none)], u64le ts, u64le t', u32le content.length, content] [(vector.map u32le).flatten, u32le crc]
      (u32le vector.length) post (pre.length + 21 + 8 + 0 + 4 + content.length) 4 rfl (by simp only [List.flatten_cons, List.flatten_nil, List.length_append, List.length_cons, List.length_nil, u64le_length, u32le_length, SYNC_MARKER_length, List.append_nil] <;> omega) (by simp)
    simp only [scanStep, r1, r2, Option.pure_def, Option.bind_eq_bind, Option.some_bind,
      hasFlag_ttl, hasFlag_meta, Option.isSome_none, Option.isSome_some,
      Bool.false_eq_true, if_false, if_true, 
      leU32_u32le content.length hc, r4, r5, leU32_u32le vector.length hv]
    simp only [Option.some.injEq, Prod.mk.injEq]
    refine ⟨leU64_u64le id hid, ?_⟩
    rw [serRecord_length]
    simp only [ttlField_none, ttlField_some, metaField_none, metaField_some,
      List.length_nil, List.length_append, u64le_length, u32le_length]
    omega
  · -- ttl present, metadata present
    have hb : pre ++ serRecord id ts (some t') (some m) content vector crc ++ post =
        ([pre, SYNC_MARKER, u64le id, [flagsOf (some t') (some m)], u64le ts, u64le t', u32le m.length, m, u32le content.length, content, u32le vector.length, (vector.map u32le).flatten, u32le crc]).flatten ++ post := by
      simp [serRecord, List.append_assoc]
    rw [hb]
    have r1 := getRange_chunks [pre, SYNC_MARKER, u64le id, [flagsOf (some t') (some m)], u64le ts, u64le t', u32le m.length, m, u32le content.length, content, u32le vector.length, (vector.map u32le).flatten, u32le crc]
      [pre, SYNC_MARKER] [[flagsOf (some t') (some m)], u64le ts, u64le t', u32le m.length, m, u32le content.length, content, u32le vector.length, (vector.map u32le).flatten, u32le crc]
      (u64le id) post (pre.length + 4) 8 rfl (by simp only [List.flatten_cons, List.flatten_nil, List.length_append, List.length_cons, List.length_nil, u64le_length, u32le_length, SYNC_MARKER_length, List.append_nil] <;> omega) (by simp)
    have r2 := readByteAt_chunks [pre, SYNC_MARKER, u64le id, [flagsOf (some t') (some m)], u64le ts, u64le t', u32le m.length, m, u32le content.length, content, u32le vector.length, (vector.map u32le).flatten, u32le crc]
      [pre, SYNC_MARKER, u64le id] [u64le ts, u64le t', u32le m.length, m, u32le content.length, content, u32le vector.length, (vector.map u32le).flatten, u32le crc]
      (flagsOf (some t') (some m)) post (pre.length + 12) rfl (by simp only [List.flatten_cons, List.flatten_nil, List.length_append, List.length_cons, List.length_nil, u64le_length, u32le_length, SYNC_MARKER_length, List.append_nil] <;> omega)
    have r3 := getRange_chunks [pre, SYNC_MARKER, u64le id, [flagsOf (some t') (some m)], u64le ts, u64le t', u32le m.length, m, u32le content.length, content, u32le vector.length, (vector.map u32le).flatten, u32le crc]
      [pre, SYNC_MARKER, u64le id, [flagsOf (some t') (some m)], u64le ts, u64le t'] [m, u32le content.length, content, u32le vector.length, (vector.map u32le).flatten, u32le crc]
      (u32le m.length) post (pre.length + 21 + 8) 4 rfl (by simp only [List.flatten_cons, List.flatten_nil, List.length_append, List.length_cons, List.length_nil, u64le_length, u32le_length, SYNC_MARKER_length, List.append_nil] <;> omega) (by simp)
    have r4 := getRange_chunks [pre, SYNC_MARKER, u64le id, [flagsOf (some t') (some m)], u64le ts, u64le t', u32le m.length, m, u32le content.length, content, u32le vector.length, (vector.map u32le).flatten, u32le crc]
      [pre, SYNC_MARKER, u64le id, [flagsOf (some t') (some m)], u64le ts, u64le t', u32le m.length, m] [content, u32le vector.length, (vector.map u32le).flatten, u32le crc]
      (u32le content.length) post (pre.length + 21 + 8 + (4 + m.length)) 4 rfl (by simp only [List.flatten_cons, List.flatten_nil, List.length_append, List.length_cons, List.length_nil, u64le_length, u32le_length, SYNC_MARKER_length, List.append_nil] <;> omega) (by simp)
    have r5 := getRange_chunks [pre, SYNC_MARKER, u64le id, [flagsOf (some t') (some m)], u64le ts, u64le t', u32le m.length, m, u32le content.length, content, u32le vector.length, (vector.map u32le).flatten, u32le crc]
      [pre, SYNC_MARKER, u64le id, [flagsOf (some t') (some m)], u64le ts, u64le t', u32le m.length, m, u32le content.length, content] [(vector.map u32le).flatten, u32le crc]
      (u32le vector.length) post (pre.length + 21 + 8 + (4 + m.length) + 4 + content.length) 4 rfl (by simp only [List.flatten_cons, List.flatten_nil, List.length_append, List.length_cons, List.length_nil, u64le_length, u32le_length, SYNC_MARKER_length, List.append_nil] <;> omega) (by simp)
    simp only [scanStep, r1, r2, r3, Option.pure_def, Option.bind_eq_bind, Option.some_bind,
      hasFlag_ttl, hasFlag_meta, Option.isSome_none, Option.isSome_some,
      Bool.false_eq_true, if_false, if_true, leU32_u32le m.length (hm m rfl), 
      leU32_u32le content.length hc, r4, r5, leU32_u32le vector.length hv]
    simp only [Option.some.injEq, Prod.mk.injEq]
    refine ⟨leU64_u64le id hid, ?_⟩
    rw [serRecord_length]
    simp only [ttlField_none, ttlField_some, metaField_none, metaField_some,
      List.length_nil, List.length_append, u64le_length, u32le_length]
    omega

/-! ## The scan walk over a stream of serialized records -/

/-- The scan never walks past the loop bound: below 17 remaining bytes it
returns the accumulated index and last id untouched. -/
theorem scanLoop_stop (buffer : List Nat) (pos : Nat) (index : Index)
    (lastId : Nat) (h : buffer.length < pos + 17) :
    scanLoop buffer pos index lastId = .ok index lastId := by
  rw [scanLoop]
  rw [dif_neg (by omega)]

/-- A scan iteration whose length decoding escapes the buffer is the Rust
panic. -/
theorem scanLoop_crash (buffer : List Nat) (pos : Nat) (index : Index)
    (lastId : Nat) (hg : pos + 17 ≤ buffer.length)
    (hm : getRange buffer pos 4 = some SYNC_MARKER)
    (hs : scanStep buffer pos = none) :
    scanLoop buffer pos index lastId = .crash := by
  rw [scanLoop, dif_pos hg, if_pos hm, hs]

/-- One scan iteration standing at a serialized record: the record's id is
inserted at the absolute offset and the walk jumps exactly past the record's
bytes. -/
theorem scanLoop_step (pre post : List Nat) (id ts : Nat) (ttl : Option Nat)
    (meta : Option (List Nat)) (content vector : List Nat) (crc : Nat)
    (index : Index) (lastId : Nat)
    (hid : id < 18446744073709551616)
    (hc : content.length < 4294967296) (hv : vector.length < 4294967296)
    (hm : ∀ m, meta = some m → m.length < 4294967296) :
    scanLoop (pre ++ serRecord id ts ttl meta content vector crc ++ post)
        pre.length index lastId =
      scanLoop (pre ++ serRecord id ts ttl meta content vector crc ++ post)
        (pre.length + (serRecord id ts ttl meta content vector crc).length)
        (idxInsert index id (HEADER_SIZE + pre.length))
        (if id > lastId then id else lastId) := by
  have hlen := serRecord_length_ge id ts ttl meta content vector crc
  have hguard : pre.length + 17 ≤
      (pre ++ serRecord id ts ttl meta content vector crc ++ post).length := by
    simp only [List.length_append]
    omega
  have hsync : getRange
      (pre ++ serRecord id ts ttl meta content vector crc ++ post)
      pre.length 4 = some SYNC_MARKER := by
    have hb : pre ++ serRecord id ts ttl meta content vector crc ++ post =
        ([pre, SYNC_MARKER,
          u64le id ++ [flagsOf ttl meta] ++ u64le ts ++ ttlField ttl ++
            metaField meta ++ u32le content.length ++ content ++
            u32le vector.length ++ (vector.map u32le).flatten ++
            u32le crc]).flatten ++ post := by
      simp [serRecord, List.append_assoc]
    rw [hb]
    exact getRange_chunks _ [pre]
      [u64le id ++ [flagsOf ttl meta] ++ u64le ts ++ ttlField ttl ++
        metaField meta ++ u32le content.length ++ content ++
        u32le vector.length ++ (vector.map u32le).flatten ++ u32le crc]
      SYNC_MARKER post _ 4 rfl (by simp) (by simp)
  conv_lhs => rw [scanLoop]
  rw [dif_pos hguard, if_pos hsync]
  simp only [scanStep_ser pre post id ts ttl meta content vector crc
    hid hc hv hm]
  rw [show pre.length + 33 +
      ((serRecord id ts ttl meta content vector crc).length - 33) =
      pre.length + (serRecord id ts ttl meta content vector crc).length from
    by omega]

/-- A stored record, as the scan and read paths see it: the assigned id, the
append input, and the stored checksum value. -/
abbrev StoredRec := Nat × RecInput × Nat

/-- Serialized bytes of a stored record. -/
def serStored (r : StoredRec) : List Nat := serOfInput r.1 r.2.1 r.2.2

/-- The record stream: the concatenation of the serialized records. -/
def bodyOf (recs : List StoredRec) : List Nat := (recs.map serStored).flatten

/-- The Offset Index the scan builds over a record stream starting at body
position base. -/
def scanIdx : Nat → Index → List StoredRec → Index
  | _, idx, [] => idx
  | base, idx, r :: rs =>
    scanIdx (base + (serStored r).length)
      (idxInsert idx r.1 (HEADER_SIZE + base)) rs

/-- The last id the scan computes over a record stream. -/
def scanLast : Nat → List StoredRec → Nat
  | lid, [] => lid
  | lid, r :: rs => scanLast (if r.1 > lid then r.1 else lid) rs

/-- Bounds letting the scan decode a stored record: the id fits u64 and the
variable-length fields fit their u32 length prefixes. -/
def wfStored (r : StoredRec) : Prop :=
  r.1 < 18446744073709551616 ∧
  r.2.1.content.length < 4294967296 ∧
  r.2.1.vector.length < 4294967296 ∧
  (∀ m, r.2.1.metaBytes = some m → m.length < 4294967296)

@[simp] theorem bodyOf_nil : bodyOf [] = [] := rfl

@[simp] theorem bodyOf_cons (r : StoredRec) (rs : List StoredRec) :
    bodyOf (r :: rs) = serStored r ++ bodyOf rs := by
  simp [bodyOf]

/-- The scan of a well-formed record stream recovers exactly the stream's
index and greatest id, for any starting accumulator. -/
theorem scanLoop_records (recs : List StoredRec) (pre : List Nat)
    (index : Index) (lastId : Nat) (hwf : ∀ r ∈ recs, wfStored r) :
    scanLoop (pre ++ bodyOf recs) pre.length index lastId =
      .ok (scanIdx pre.length index recs) (scanLast lastId recs) := by
  induction recs generalizing pre index lastId with
  | nil =>
    rw [bodyOf_nil, List.append_nil]
    exact scanLoop_stop pre pre.length index lastId (by omega)
  | cons r rs ih =>
    obtain ⟨hid, hc, hv, hm⟩ := hwf r (by simp)
    have hstep := scanLoop_step pre (bodyOf rs) r.1 r.2.1.timestamp r.2.1.ttl
      r.2.1.metaBytes r.2.1.content r.2.1.vector r.2.2 index lastId
      hid hc hv hm
    have hser : serRecord r.1 r.2.1.timestamp r.2.1.ttl r.2.1.metaBytes
        r.2.1.content r.2.1.vector r.2.2 = serStored r := rfl
    rw [hser] at hstep
    rw [bodyOf_cons, ← List.append_assoc]
    have hre : pre ++ serStored r ++ bodyOf rs =
        (pre ++ serStored r) ++ bodyOf rs := by
      rw [List.append_assoc]
    have hlen2 : pre.length + (serStored r).length =
        (pre ++ serStored r).length := by
      rw [List.length_append]
    calc scanLoop (pre ++ serStored r ++ bodyOf rs) pre.length index lastId
        = scanLoop (pre ++ serStored r ++ bodyOf rs)
            ((pre ++ serStored r).length)
            (idxInsert index r.1 (HEADER_SIZE + pre.length))
            (if r.1 > lastId then r.1 else lastId) := by
          rw [← hlen2]
          exact hstep
      _ = .ok (scanIdx pre.length index (r :: rs))
            (scanLast lastId (r :: rs)) := by
          rw [hre]
          rw [ih (pre ++ serStored r) _ _
            (fun x hx => hwf x (by simp [hx]))]
          rw [scanIdx, scanLast, List.length_append]

/-! ## The read path on serialized records -/

@[simp] theorem parseBind_ok {α β : Type} (a : α) (f : α → Parse β) :
    Parse.ok a >>= f = f a := rfl

@[simp] theorem parseBind_notFound {α β : Type} (f : α → Parse β) :
    (Parse.notFound : Parse α) >>= f = Parse.notFound := rfl

@[simp] theorem parseBind_err {α β : Type} (f : α → Parse β) :
    (Parse.err : Parse α) >>= f = Parse.err := rfl

@[simp] theorem parseBind_crash {α β : Type} (f : α → Parse β) :
    (Parse.crash : Parse α) >>= f = Parse.crash := rfl

@[simp] theorem parsePure {α : Type} (a : α) :
    (pure a : Parse α) = Parse.ok a := rfl

@[simp] theorem liftSlice_some {α : Type} (a : α) :
    liftSlice (some a) = Parse.ok a := rfl

@[simp] theorem liftSlice_none {α : Type} :
    (liftSlice none : Parse α) = Parse.crash := rfl

theorem readVec_ser (pre rest v : List Nat)
    (hvx : ∀ x ∈ v, x < 4294967296) :
    readVec (pre ++ ((v.map u32le).flatten ++ rest)) pre.length v.length =
      some v := by
  induction v generalizing pre with
  | nil => rfl
  | cons x xs ih =>
    have r1 : getRange (pre ++ (((x :: xs).map u32le).flatten ++ rest))
        pre.length 4 = some (u32le x) := by
      have hsh : pre ++ (((x :: xs).map u32le).flatten ++ rest) =
          pre ++ u32le x ++ ((xs.map u32le).flatten ++ rest) := by
        simp [List.append_assoc]
      rw [hsh]
      have h := getRange_exact pre (u32le x) ((xs.map u32le).flatten ++ rest)
      simpa using h
    have r2 : readVec (pre ++ (((x :: xs).map u32le).flatten ++ rest))
        (pre.length + 4) xs.length = some xs := by
      have hsh : pre ++ (((x :: xs).map u32le).flatten ++ rest) =
          (pre ++ u32le x) ++ ((xs.map u32le).flatten ++ rest) := by
        simp [List.append_assoc]
      rw [hsh]
      have h := ih (pre ++ u32le x) (fun y hy => hvx y (by simp [hy]))
      simpa [List.length_append] using h
    have hx := leU32_u32le x (hvx x (by simp))
    simp only [List.length_cons, readVec, r1, r2, Option.pure_def,
      Option.bind_eq_bind, Option.some_bind, hx]

theorem readVec_chunks (L chunks₁ chunks₂ : List (List Nat)) (v : List Nat)
    (post : List Nat) (i n : Nat)
    (hL : L = chunks₁ ++ [(v.map u32le).flatten] ++ chunks₂)
    (hi : i = (chunks₁.flatten).length) (hn : n = v.length)
    (hvx : ∀ x ∈ v, x < 4294967296) :
    readVec (L.flatten ++ post) i n = some v := by
  rw [hL, hi, hn]
  have h2 : (chunks₁ ++ [(v.map u32le).flatten] ++ chunks₂).flatten ++ post =
      chunks₁.flatten ++
        ((v.map u32le).flatten ++ (chunks₂.flatten ++ post)) := by
    simp [List.append_assoc]
  rw [h2]
  exact readVec_ser chunks₁.flatten (chunks₂.flatten ++ post) v hvx

/-- read_record's in-place parse of one serialized record at its offset:
returns exactly the record that was appended. -/
theorem readRecordP_ser (pre post : List Nat) (id ts : Nat) (ttl : Option Nat)
    (meta : Option (List Nat)) (content vector : List Nat) (crc : Nat)
    (hid : id < 18446744073709551616) (hts : ts < 18446744073709551616)
    (httl : ∀ t, ttl = some t → t < 18446744073709551616)
    (hc : content.length < 4294967296) (hv : vector.length < 4294967296)
    (hm : ∀ m, meta = some m → m.length < 4294967296 ∧ isJsonStrMap m = true)
    (hutf : isValidUtf8 content = true)
    (hvx : ∀ x ∈ vector, x < 4294967296) :
    readRecordP (pre ++ serRecord id ts ttl meta content vector crc ++ post)
        pre.length id =
      Parse.ok ⟨id, content, vector, ts, ttl, meta⟩ := by
  rcases ttl with _ | t' <;> rcases meta with _ | m
  · -- ttl absent, metadata absent
    have hb : pre ++ serRecord id ts (none) (none) content vector crc ++ post =
        ([pre, SYNC_MARKER, u64le id, [flagsOf (none) (none)], u64le ts, u32le content.length, content, u32le vector.length, (vector.map u32le).flatten, u32le crc]).flatten ++ post := by
      simp [serRecord, List.append_assoc]
    rw [hb]
    have r0 := getRange_chunks [pre, SYNC_MARKER, u64le id, [flagsOf (none) (none)], u64le ts, u32le content.length, content, u32le vector.length, (vector.map u32le).flatten, u32le crc]
      [pre] [u64le id, [flagsOf (none) (none)], u64le ts, u32le content.length, content, u32le vector.length, (vector.map u32le).flatten, u32le crc]
      (SYNC_MARKER) post (pre.length) 4 rfl (by simp only [List.flatten_cons, List.flatten_nil, List.length_append, List.length_cons, List.length_nil, u64le_length, u32le_length, SYNC_MARKER_length, List.append_nil] <;> omega) (by simp)
    have r1 := getRange_chunks [pre, SYNC_MARKER, u64le id, [flagsOf (none) (none)], u64le ts, u32le content.length, content, u32le vector.length, (vector.map u32le).flatten, u32le crc]
      [pre, SYNC_MARKER] [[flagsOf (none) (none)], u64le ts, u32le content.length, content, u32le vector.length, (vector.map u32le).flatten, u32le crc]
      (u64le id) post (pre.length + 4) 8 rfl (by simp only [List.flatten_cons, List.flatten_nil, List.length_append, List.length_cons, List.length_nil, u64le_length, u32le_length, SYNC_MARKER_length, List.append_nil] <;> omega) (by simp)
    have r2 := readByteAt_chunks [pre, SYNC_MARKER, u64le id, [flagsOf (none) (none)], u64le ts, u32le content.length, content, u32le vector.length, (vector.map u32le).flatten, u32le crc]
      [pre, SYNC_MARKER, u64le id] [u64le ts, u32le content.length, content, u32le vector.length, (vector.map u32le).flatten, u32le crc]
      (flagsOf (none) (none)) post (pre.length + 12) rfl (by simp only [List.flatten_cons, List.flatten_nil, List.length_append, List.length_cons, List.length_nil, u64le_length, u32le_length, SYNC_MARKER_length, List.append_nil] <;> omega)
    have r3 := getRange_chunks [pre, SYNC_MARKER, u64le id, [flagsOf (none) (none)], u64le ts, u32le content.length, content, u32le vector.length, (vector.map u32le).flatten, u32le crc]
      [pre, SYNC_MARKER, u64le id, [flagsOf (none) (none)]] [u32le content.length, content, u32le vector.length, (vector.map u32le).flatten, u32le crc]
      (u64le ts) post (pre.length + 13) 8 rfl (by simp only [List.flatten_cons, List.flatten_nil, List.length_append, List.length_cons, List.length_nil, u64le_length, u32le_length, SYNC_MARKER_length, List.append_nil] <;> omega) (by simp)
    have r7 := getRange_chunks [pre, SYNC_MARKER, u64le id, [flagsOf (none) (none)], u64le ts, u32le content.length, content, u32le vector.length, (vector.map u32le).flatten, u32le crc]
      [pre, SYNC_MARKER, u64le id, [flagsOf (none) (none)], u64le ts] [content, u32le vector.length, (vector.map u32le).flatten, u32le crc]
      (u32le content.length) post (pre.length + 21) 4 rfl (by simp only [List.flatten_cons, List.flatten_nil, List.length_append, List.length_cons, List.length_nil, u64le_length, u32le_length, SYNC_MARKER_length, List.append_nil] <;> omega) (by simp)
    have r8 := getRange_chunks [pre, SYNC_MARKER, u64le id, [flagsOf (none) (none)], u64le ts, u32le content.length, content, u32le vector.length, (vector.map u32le).flatten, u32le crc]
      [pre, SYNC_MARKER, u64le id, [flagsOf (none) (none)], u64le ts, u32le content.length] [u32le vector.length, (vector.map u32le).flatten, u32le crc]
      (content) post (pre.length + 21 + 4) content.length rfl (by simp only [List.flatten_cons, List.flatten_nil, List.length_append, List.length_cons, List.length_nil, u64le_length, u32le_length, SYNC_MARKER_length, List.append_nil] <;> omega) rfl
    have r9 := getRange_chunks [pre, SYNC_MARKER, u64le id, [flagsOf (none) (none)], u64le ts, u32le content.length, content, u32le vector.length, (vector.map u32le).flatten, u32le crc]
      [pre, SYNC_MARKER, u64le id, [flagsOf (none) (none)], u64le ts, u32le content.length, content] [(vector.map u32le).flatten, u32le crc]
      (u32le vector.length) post (pre.length + 21 + 4 + content.length) 4 rfl (by simp only [List.flatten_cons, List.flatten_nil, List.length_append, List.length_cons, List.length_nil, u64le_length, u32le_length, SYNC_MARKER_length, List.append_nil] <;> omega) (by simp)
    have r10 := readVec_chunks [pre, SYNC_MARKER, u64le id, [flagsOf (none) (none)], u64le ts, u32le content.length, content, u32le vector.length, (vector.map u32le).flatten, u32le crc]
      [pre, SYNC_MARKER, u64le id, [flagsOf (none) (none)], u64le ts, u32le content.length, content, u32le vector.length] [u32le crc]
      vector post (pre.length + 21 + 4 + content.length + 4) vector.length rfl (by simp only [List.flatten_cons, List.flatten_nil, List.length_append, List.length_cons, List.length_nil, u64le_length, u32le_length, SYNC_MARKER_length, List.append_nil] <;> omega) rfl hvx
    simp only [readRecordP, r0, r1, r2, r3, r7, r8, r9, r10,
      liftSlice_some, parseBind_ok, parsePure, hasFlag_ttl, hasFlag_meta,
      Option.isSome_some, Option.isSome_none, Bool.false_eq_true,
      if_false, if_true, ne_eq, eq_self_iff_true, not_true, 
      leU64_u64le id hid, leU64_u64le ts hts,
      leU32_u32le content.length hc, leU32_u32le vector.length hv, hutf]
  · -- ttl absent, metadata present
    have hb : pre ++ serRecord id ts (none) (some m) content vector crc ++ post =
        ([pre, SYNC_MARKER, u64le id, [flagsOf (none) (some m)], u64le ts, u32le m.length, m, u32le content.length, content, u32le vector.length, (vector.map u32le).flatten, u32le crc]).flatten ++ post := by
      simp [serRecord, List.append_assoc]
    rw [hb]
    have r0 := getRange_chunks [pre, SYNC_MARKER, u64le id, [flagsOf (none) (some m)], u64le ts, u32le m.length, m, u32le content.length, content, u32le vector.length, (vector.map u32le).flatten, u32le crc]
      [pre] [u64le id, [flagsOf (none) (some m)], u64le ts, u32le m.length, m, u32le content.length, content, u32le vector.length, (vector.map u32le).flatten, u32le crc]
      (SYNC_MARKER) post (pre.length) 4 rfl (by simp only [List.flatten_cons, List.flatten_nil, List.length_append, List.length_cons, List.length_nil, u64le_length, u32le_length, SYNC_MARKER_length, List.append_nil] <;> omega) (by simp)
    have r1 := getRange_chunks [pre, SYNC_MARKER, u64le id, [flagsOf (none) (some m)], u64le ts, u32le m.length, m, u32le content.length, content, u32le vector.length, (vector.map u32le).flatten, u32le crc]
      [pre, SYNC_MARKER] [[flagsOf (none) (some m)], u64le ts, u32le m.length, m, u32le content.length, content, u32le vector.length, (vector.map u32le).flatten, u32le crc]
      (u64le id) post (pre.length + 4) 8 rfl (by simp only [List.flatten_cons, List.flatten_nil, List.length_append, List.length_cons, List.length_nil, u64le_length, u32le_length, SYNC_MARKER_length, List.append_nil] <;> omega) (by simp)
    have r2 := readByteAt_chunks [pre, SYNC_MARKER, u64le id, [flagsOf (none) (some m)], u64le ts, u32le m.length, m, u32le content.length, content, u32le vector.length, (vector.map u32le).flatten, u32le crc]
      [pre, SYNC_MARKER, u64le id] [u64le ts, u32le m.length, m, u32le content.length, content, u32le vector.length, (vector.map u32le).flatten, u32le crc]
      (flagsOf (none) (some m)) post (pre.length + 12) rfl (by simp only [List.flatten_cons, List.flatten_nil, List.length_append, List.length_cons, List.length_nil, u64le_length, u32le_length, SYNC_MARKER_length, List.append_nil] <;> omega)
    have r3 := getRange_chunks [pre, SYNC_MARKER, u64le id, [flagsOf (none) (some m)], u64le ts, u32le m.length, m, u32le content.length, content, u32le vector.length, (vector.map u32le).flatten, u32le crc]
      [pre, SYNC_MARKER, u64le id, [flagsOf (none) (some m)]] [u32le m.length, m, u32le content.length, content, u32le vector.length, (vector.map u32le).flatten, u32le crc]
      (u64le ts) post (pre.length + 13) 8 rfl (by simp only [List.flatten_cons, List.flatten_nil, List.length_append, List.length_cons, List.length_nil, u64le_length, u32le_length, SYNC_MARKER_length, List.append_nil] <;> omega) (by simp)
    have r5 := getRange_chunks [pre, SYNC_MARKER, u64le id, [flagsOf (none) (some m)], u64le ts, u32le m.length, m, u32le content.length, content, u32le vector.length, (vector.map u32le).flatten, u32le crc]
      [pre, SYNC_MARKER, u64le id, [flagsOf (none) (some m)], u64le ts] [m, u32le content.length, content, u32le vector.length, (vector.map u32le).flatten, u32le crc]
      (u32le m.length) post (pre.length + 21) 4 rfl (by simp only [List.flatten_cons, List.flatten_nil, List.length_append, List.length_cons, List.length_nil, u64le_length, u32le_length, SYNC_MARKER_length, List.append_nil] <;> omega) (by simp)
    have r6 := getRange_chunks [pre, SYNC_MARKER, u64le id, [flagsOf (none) (some m)], u64le ts, u32le m.length, m, u32le content.length, content, u32le vector.length, (vector.map u32le).flatten, u32le crc]
      [pre, SYNC_MARKER, u64le id, [flagsOf (none) (some m)], u64le ts, u32le m.length] [u32le content.length, content, u32le vector.length, (vector.map u32le).flatten, u32le crc]
      (m) post (pre.length + 21 + 4) m.length rfl (by simp only [List.flatten_cons, List.flatten_nil, List.length_append, List.length_cons, List.length_nil, u64le_length, u32le_length, SYNC_MARKER_length, List.append_nil] <;> omega) rfl
    have r7 := getRange_chunks [pre, SYNC_MARKER, u64le id, [flagsOf (none) (some m)], u64le ts, u32le m.length, m, u32le content.length, content, u32le vector.length, (vector.map u32le).flatten, u32le crc]
      [pre, SYNC_MARKER, u64le id, [flagsOf (none) (some m)], u64le ts, u32le m.length, m] [content, u32le vector.length, (vector.map u32le).flatten, u32le crc]
      (u32le content.length) post (pre.length + 21 + 4 + m.length) 4 rfl (by simp only [List.flatten_cons, List.flatten_nil, List.length_append, List.length_cons, List.length_nil, u64le_length, u32le_length, SYNC_MARKER_length, List.append_nil] <;> omega) (by simp)
    have r8 := getRange_chunks [pre, SYNC_MARKER, u64le id, [flagsOf (none) (some m)], u64le ts, u32le m.length, m, u32le content.length, content, u32le vector.length, (vector.map u32le).flatten, u32le crc]
      [pre, SYNC_MARKER, u64le id, [flagsOf (none) (some m)], u64le ts, u32le m.length, m, u32le content.length] [u32le vector.length, (vector.map u32le).flatten, u32le crc]
      (content) post (pre.length + 21 + 4 + m.length + 4) content.length rfl (by simp only [List.flatten_cons, List.flatten_nil, List.length_append, List.length_cons, List.length_nil, u64le_length, u32le_length, SYNC_MARKER_length, List.append_nil] <;> omega) rfl
    have r9 := getRange_chunks [pre, SYNC_MARKER, u64le id, [flagsOf (none) (some m)], u64le ts, u32le m.length, m, u32le content.length, content, u32le vector.length, (vector.map u32le).flatten, u32le crc]
      [pre, SYNC_MARKER, u64le id, [flagsOf (none) (some m)], u64le ts, u32le m.length, m, u32le content.length, content] [(vector.map u32le).flatten, u32le crc]
      (u32le vector.length) post (pre.length + 21 + 4 + m.length + 4 + content.length) 4 rfl (by simp only [List.flatten_cons, List.flatten_nil, List.length_append, List.length_cons, List.length_nil, u64le_length, u32le_length, SYNC_MARKER_length, List.append_nil] <;> omega) (by simp)
    have r10 := readVec_chunks [pre, SYNC_MARKER, u64le id, [flagsOf (none) (some m)], u64le ts, u32le m.length, m, u32le content.length, content, u32le vector.length, (vector.map u32le).flatten, u32le crc]
      [pre, SYNC_MARKER, u64le id, [flagsOf (none) (some m)], u64le ts, u32le m.length, m, u32le content.length, content, u32le vector.length] [u32le crc]
      vector post (pre.length + 21 + 4 + m.length + 4 + content.length + 4) vector.length rfl (by simp only [List.flatten_cons, List.flatten_nil, List.length_append, List.length_cons, List.length_nil, u64le_length, u32le_length, SYNC_MARKER_length, List.append_nil] <;> omega) rfl hvx
    simp only [readRecordP, r0, r1, r2, r3, r7, r8, r9, r10,
      liftSlice_some, parseBind_ok, parsePure, hasFlag_ttl, hasFlag_meta,
      Option.isSome_some, Option.isSome_none, Bool.false_eq_true,
      if_false, if_true, ne_eq, eq_self_iff_true, not_true, leU32_u32le m.length (hm m rfl).1, (hm m rfl).2, r5, r6, 
      leU64_u64le id hid, leU64_u64le ts hts,
      leU32_u32le content.length hc, leU32_u32le vector.length hv, hutf]
  · -- ttl present, metadata absent
    have hb : pre ++ serRecord id ts (some t') (none) content vector crc ++ post =
        ([pre, SYNC_MARKER, u64le id, [flagsOf (some t') (none)], u64le ts, u64le t', u32le content.length, content, u32le vector.length, (vector.map u32le).flatten, u32le crc]).flatten ++ post := by
      simp [serRecord, List.append_assoc]
    rw [hb]
    have r0 := getRange_chunks [pre, SYNC_MARKER, u64le id, [flagsOf (some t') (none)], u64le ts, u64le t', u32le content.length, content, u32le vector.length, (vector.map u32le).flatten, u32le crc]
      [pre] [u64le id, [flagsOf (some t') (none)], u64le ts, u64le t', u32le content.length, content, u32le vector.length, (vector.map u32le).flatten, u32le crc]
      (SYNC_MARKER) post (pre.length) 4 rfl (by simp only [List.flatten_cons, List.flatten_nil, List.length_append, List.length_cons, List.length_nil, u64le_length, u32le_length, SYNC_MARKER_length, List.append_nil] <;> omega) (by simp)
    have r1 := getRange_chunks [pre, SYNC_MARKER, u64le id, [flagsOf (some t') (none)], u64le ts, u64le t', u32le content.length, content, u32le vector.length, (vector.map u32le).flatten, u32le crc]
      [pre, SYNC_MARKER] [[flagsOf (some t') (none)], u64le ts, u64le t', u32le content.length, content, u32le vector.length, (vector.map u32le).flatten, u32le crc]
      (u64le id) post (pre.length + 4) 8 rfl (by simp only [List.flatten_cons, List.flatten_nil, List.length_append, List.length_cons, List.length_nil, u64le_length, u32le_length, SYNC_MARKER_length, List.append_nil] <;> omega) (by simp)
    have r2 := readByteAt_chunks [pre, SYNC_MARKER, u64le id, [flagsOf (some t') (none)], u64le ts, u64le t', u32le content.length, content, u32le vector.length, (vector.map u32le).flatten, u32le crc]
      [pre, SYNC_MARKER, u64le id] [u64le ts, u64le t', u32le content.length, content, u32le vector.length, (vector.map u32le).flatten, u32le crc]
      (flagsOf (some t') (none)) post (pre.length + 12) rfl (by simp only [List.flatten_cons, List.flatten_nil, List.length_append, List.length_cons, List.length_nil, u64le_length, u32le_length, SYNC_MARKER_length, List.append_nil] <;> omega)
    have r3 := getRange_chunks [pre, SYNC_MARKER, u64le id, [flagsOf (some t') (none)], u64le ts, u64le t', u32le content.length, content, u32le vector.length, (vector.map u32le).flatten, u32le crc]
      [pre, SYNC_MARKER, u64le id, [flagsOf (some t') (none)]] [u64le t', u32le content.length, content, u32le vector.length, (vector.map u32le).flatten, u32le crc]
      (u64le ts) post (pre.length + 13) 8 rfl (by simp only [List.flatten_cons, List.flatten_nil, List.length_append, List.length_cons, List.length_nil, u64le_length, u32le_length, SYNC_MARKER_length, List.append_nil] <;> omega) (by simp)
    have r4 := getRange_chunks [pre, SYNC_MARKER, u64le id, [flagsOf (some t') (none)], u64le ts, u64le t', u32le content.length, content, u32le vector.length, (vector.map u32le).flatten, u32le crc]
      [pre, SYNC_MARKER, u64le id, [flagsOf (some t') (none)], u64le ts] [u32le content.length, content, u32le vector.length, (vector.map u32le).flatten, u32le crc]
      (u64le t') post (pre.length + 21) 8 rfl (by simp only [List.flatten_cons, List.flatten_nil, List.length_append, List.length_cons, List.length_nil, u64le_length, u32le_length, SYNC_MARKER_length, List.append_nil] <;> omega) (by simp)
    have r7 := getRange_chunks [pre, SYNC_MARKER, u64le id, [flagsOf (some t') (none)], u64le ts, u64le t', u32le content.length, content, u32le vector.length, (vector.map u32le).flatten, u32le crc]
      [pre, SYNC_MARKER, u64le id, [flagsOf (some t') (none)], u64le ts, u64le t'] [content, u32le vector.length, (vector.map u32le).flatten, u32le crc]
      (u32le content.length) post (pre.length + 29) 4 rfl (by simp only [List.flatten_cons, List.flatten_nil, List.length_append, List.length_cons, List.length_nil, u64le_length, u32le_length, SYNC_MARKER_length, List.append_nil] <;> omega) (by simp)
    have r8 := getRange_chunks [pre, SYNC_MARKER, u64le id, [flagsOf (some t') (none)], u64le ts, u64le t', u32le content.length, content, u32le vector.length, (vector.map u32le).flatten, u32le crc]
      [pre, SYNC_MARKER, u64le id, [flagsOf (some t') (none)], u64le ts, u64le t', u32le content.length] [u32le vector.length, (vector.map u32le).flatten, u32le crc]
      (content) post (pre.length + 29 + 4) content.length rfl (by simp only [List.flatten_cons, List.flatten_nil, List.length_append, List.length_cons, List.length_nil, u64le_length, u32le_length, SYNC_MARKER_length, List.append_nil] <;> omega) rfl
    have r9 := getRange_chunks [pre, SYNC_MARKER, u64le id, [flagsOf (some t') (none)], u64le ts, u64le t', u32le content.length, content, u32le vector.length, (vector.map u32le).flatten, u32le crc]
      [pre, SYNC_MARKER, u64le id, [flagsOf (some t') (none)], u64le ts, u64le t', u32le content.length, content] [(vector.map u32le).flatten, u32le crc]
      (u32le vector.length) post (pre.length + 29 + 4 + content.length) 4 rfl (by simp only [List.flatten_cons, List.flatten_nil, List.length_append, List.length_cons, List.length_nil, u64le_length, u32le_length, SYNC_MARKER_length, List.append_nil] <;> omega) (by simp)
    have r10 := readVec_chunks [pre, SYNC_MARKER, u64le id, [flagsOf (some t') (none)], u64le ts, u64le t', u32le content.length, content, u32le vector.length, (vector.map u32le).flatten, u32le crc]
      [pre, SYNC_MARKER, u64le id, [flagsOf (some t') (none)], u64le ts, u64le t', u32le content.length, content, u32le vector.length] [u32le crc]
      vector post (pre.length + 29 + 4 + content.length + 4) vector.length rfl (by simp only [List.flatten_cons, List.flatten_nil, List.length_append, List.length_cons, List.length_nil, u64le_length, u32le_length, SYNC_MARKER_length, List.append_nil] <;> omega) rfl hvx
    simp only [readRecordP, r0, r1, r2, r3, r4, r7, r8, r9, r10,
      liftSlice_some, parseBind_ok, parsePure, hasFlag_ttl, hasFlag_meta,
      Option.isSome_some, Option.isSome_none, Bool.false_eq_true,
      if_false, if_true, ne_eq, eq_self_iff_true, not_true, leU64_u64le t' (httl t' rfl), 
      leU64_u64le id hid, leU64_u64le ts hts,
      leU32_u32le content.length hc, leU32_u32le vector.length hv, hutf]
  · -- ttl present, metadata present
    have hb : pre ++ serRecord id ts (some t') (some m) content vector crc ++ post =
        ([pre, SYNC_MARKER, u64le id, [flagsOf (some t') (some m)], u64le ts, u64le t', u32le m.length, m, u32le content.length, content, u32le vector.length, (vector.map u32le).flatten, u32le crc]).flatten ++ post := by
      simp [serRecord, List.append_assoc]
    rw [hb]
    have r0 := getRange_chunks [pre, SYNC_MARKER, u64le id, [flagsOf (some t') (some m)], u64le ts, u64le t', u32le m.length, m, u32le content.length, content, u32le vector.length, (vector.map u32le).flatten, u32le crc]
      [pre] [u64le id, [flagsOf (some t') (some m)], u64le ts, u64le t', u32le m.length, m, u32le content.length, content, u32le vector.length, (vector.map u32le).flatten, u32le crc]
      (SYNC_MARKER) post (pre.length) 4 rfl (by simp only [List.flatten_cons, List.flatten_nil, List.length_append, List.length_cons, List.length_nil, u64le_length, u32le_length, SYNC_MARKER_length, List.append_nil] <;> omega) (by simp)
    have r1 := getRange_chunks [pre, SYNC_MARKER, u64le id, [flagsOf (some t') (some m)], u64le ts, u64le t', u32le m.length, m, u32le content.length, content, u32le vector.length, (vector.map u32le).flatten, u32le crc]
      [pre, SYNC_MARKER] [[flagsOf (some t') (some m)], u64le ts, u64le t', u32le m.length, m, u32le content.length, content, u32le vector.length, (vector.map u32le).flatten, u32le crc]
      (u64le id) post (pre.length + 4) 8 rfl (by simp only [List.flatten_cons, List.flatten_nil, List.length_append, List.length_cons, List.length_nil, u64le_length, u32le_length, SYNC_MARKER_length, List.append_nil] <;> omega) (by simp)
    have r2 := readByteAt_chunks [pre, SYNC_MARKER, u64le id, [flagsOf (some t') (some m)], u64le ts, u64le t', u32le m.length, m, u32le content.length, content, u32le vector.length, (vector.map u32le).flatten, u32le crc]
      [pre, SYNC_MARKER, u64le id] [u64le ts, u64le t', u32le m.length, m, u32le content.length, content, u32le vector.length, (vector.map u32le).flatten, u32le crc]
      (flagsOf (some t') (some m)) post (pre.length + 12) rfl (by simp only [List.flatten_cons, List.flatten_nil, List.length_append, List.length_cons, List.length_nil, u64le_length, u32le_length, SYNC_MARKER_length, List.append_nil] <;> omega)
    have r3 := getRange_chunks [pre, SYNC_MARKER, u64le id, [flagsOf (some t') (some m)], u64le ts, u64le t', u32le m.length, m, u32le content.length, content, u32le vector.length, (vector.map u32le).flatten, u32le crc]
      [pre, SYNC_MARKER, u64le id, [flagsOf (some t') (some m)]] [u64le t', u32le m.length, m, u32le content.length, content, u32le vector.length, (vector.map u32le).flatten, u32le crc]
      (u64le ts) post (pre.length + 13) 8 rfl (by simp only [List.flatten_cons, List.flatten_nil, List.length_append, List.length_cons, List.length_nil, u64le_length, u32le_length, SYNC_MARKER_length, List.append_nil] <;> omega) (by simp)
    have r4 := getRange_chunks [pre, SYNC_MARKER, u64le id, [flagsOf (some t') (some m)], u64le ts, u64le t', u32le m.length, m, u32le content.length, content, u32le vector.length, (vector.map u32le).flatten, u32le crc]
      [pre, SYNC_MARKER, u64le id, [flagsOf (some t') (some m)], u64le ts] [u32le m.length, m, u32le content.length, content, u32le vector.length, (vector.map u32le).flatten, u32le crc]
      (u64le t') post (pre.length + 21) 8 rfl (by simp only [List.flatten_cons, List.flatten_nil, List.length_append, List.length_cons, List.length_nil, u64le_length, u32le_length, SYNC_MARKER_length, List.append_nil] <;> omega) (by simp)
    have r5 := getRange_chunks [pre, SYNC_MARKER, u64le id, [flagsOf (some t') (some m)], u64le ts, u64le t', u32le m.length, m, u32le content.length, content, u32le vector.length, (vector.map u32le).flatten, u32le crc]
      [pre, SYNC_MARKER, u64le id, [flagsOf (some t') (some m)], u64le ts, u64le t'] [m, u32le content.length, content, u32le vector.length, (vector.map u32le).flatten, u32le crc]
      (u32le m.length) post (pre.length + 29) 4 rfl (by simp only [List.flatten_cons, List.flatten_nil, List.length_append, List.length_cons, List.length_nil, u64le_length, u32le_length, SYNC_MARKER_length, List.append_nil] <;> omega) (by simp)
    have r6 := getRange_chunks [pre, SYNC_MARKER, u64le id, [flagsOf (some t') (some m)], u64le ts, u64le t', u32le m.length, m, u32le content.length, content, u32le vector.length, (vector.map u32le).flatten, u32le crc]
      [pre, SYNC_MARKER, u64le id, [flagsOf (some t') (some m)], u64le ts, u64le t', u32le m.length] [u32le content.length, content, u32le vector.length, (vector.map u32le).flatten, u32le crc]
      (m) post (pre.length + 29 + 4) m.length rfl (by simp only [List.flatten_cons, List.flatten_nil, List.length_append, List.length_cons, List.length_nil, u64le_length, u32le_length, SYNC_MARKER_length, List.append_nil] <;> omega) rfl
    have r7 := getRange_chunks [pre, SYNC_MARKER, u64le id, [flagsOf (some t') (some m)], u64le ts, u64le t', u32le m.length, m, u32le content.length, content, u32le vector.length, (vector.map u32le).flatten, u32le crc]
      [pre, SYNC_MARKER, u64le id, [flagsOf (some t') (some m)], u64le ts, u64le t', u32le m.length, m] [content, u32le vector.length, (vector.map u32le).flatten, u32le crc]
      (u32le content.length) post (pre.length + 29 + 4 + m.length) 4 rfl (by simp only [List.flatten_cons, List.flatten_nil, List.length_append, List.length_cons, List.length_nil, u64le_length, u32le_length, SYNC_MARKER_length, List.append_nil] <;> omega) (by simp)
    have r8 := getRange_chunks [pre, SYNC_MARKER, u64le id, [flagsOf (some t') (some m)], u64le ts, u64le t', u32le m.length, m, u32le content.length, content, u32le vector.length, (vector.map u32le).flatten, u32le crc]
      [pre, SYNC_MARKER, u64le id, [flagsOf (some t') (some m)], u64le ts, u64le t', u32le m.length, m, u32le content.length] [u32le vector.length, (vector.map u32le).flatten, u32le crc]
      (content) post (pre.length + 29 + 4 + m.length + 4) content.length rfl (by simp only [List.flatten_cons, List.flatten_nil, List.length_append, List.length_cons, List.length_nil, u64le_length, u32le_length, SYNC_MARKER_length, List.append_nil] <;> omega) rfl
    have r9 := getRange_chunks [pre, SYNC_MARKER, u64le id, [flagsOf (some t') (some m)], u64le ts, u64le t', u32le m.length, m, u32le content.length, content, u32le vector.length, (vector.map u32le).flatten, u32le crc]
      [pre, SYNC_MARKER, u64le id, [flagsOf (some t') (some m)], u64le ts, u64le t', u32le m.length, m, u32le content.length, content] [(vector.map u32le).flatten, u32le crc]
      (u32le vector.length) post (pre.length + 29 + 4 + m.length + 4 + content.length) 4 rfl (by simp only [List.flatten_cons, List.flatten_nil, List.length_append, List.length_cons, List.length_nil, u64le_length, u32le_length, SYNC_MARKER_length, List.append_nil] <;> omega) (by simp)
    have r10 := readVec_chunks [pre, SYNC_MARKER, u64le id, [flagsOf (some t') (some m)], u64le ts, u64le t', u32le m.length, m, u32le content.length, content, u32le vector.length, (vector.map u32le).flatten, u32le crc]
      [pre, SYNC_MARKER, u64le id, [flagsOf (some t') (some m)], u64le ts, u64le t', u32le m.length, m, u32le content.length, content, u32le vector.length] [u32le crc]
      vector post (pre.length + 29 + 4 + m.length + 4 + content.length + 4) vector.length rfl (by simp only [List.flatten_cons, List.flatten_nil, List.length_append, List.length_cons, List.length_nil, u64le_length, u32le_length, SYNC_MARKER_length, List.append_nil] <;> omega) rfl hvx
    simp only [readRecordP, r0, r1, r2, r3, r4, r7, r8, r9, r10,
      liftSlice_some, parseBind_ok, parsePure, hasFlag_ttl, hasFlag_meta,
      Option.isSome_some, Option.isSome_none, Bool.false_eq_true,
      if_false, if_true, ne_eq, eq_self_iff_true, not_true, leU64_u64le t' (httl t' rfl), leU32_u32le m.length (hm m rfl).1, (hm m rfl).2, r5, r6, 
      leU64_u64le id hid, leU64_u64le ts hts,
      leU32_u32le content.length hc, leU32_u32le vector.length hv, hutf]

/-! ## Offset Index bookkeeping -/

@[simp] theorem idxLookup_nil (k : Nat) : idxLookup [] k = none := rfl

theorem idxLookup_insert_self (idx : Index) (k v : Nat) :
    idxLookup (idxInsert idx k v) k = some v := by
  unfold idxLookup idxInsert
  rw [List.find?_cons_of_pos _ (by simp)]
  rfl

theorem find?_filter_ne (idx : Index) (k i : Nat) (h : i ≠ k) :
    (idx.filter (fun p => p.1 != k)).find? (fun p => p.1 == i) =
      idx.find? (fun p => p.1 == i) := by
  induction idx with
  | nil => rfl
  | cons a rest ih =>
    by_cases hk : a.1 = k
    · have h1 : (a.1 != k) = false := by simp [hk]
      have h2 : (a.1 == i) = false := by
        simp only [beq_eq_false_iff_ne, ne_eq, hk]
        omega
      simp [List.filter_cons, h1, List.find?_cons, h2, ih]
    · have h1 : (a.1 != k) = true := by simp [hk]
      by_cases hi : a.1 = i
      · have h2 : (a.1 == i) = true := by simp [hi]
        simp [List.filter_cons, h1, List.find?_cons, h2]
      · have h2 : (a.1 == i) = false := by simp [hi]
        simp [List.filter_cons, h1, List.find?_cons, h2, ih]

theorem idxLookup_insert_ne (idx : Index) (k v i : Nat) (h : i ≠ k) :
    idxLookup (idxInsert idx k v) i = idxLookup idx i := by
  unfold idxLookup idxInsert
  rw [List.find?_cons_of_neg _ (by simp [Ne.symm h])]
  rw [find?_filter_ne idx k i h]

theorem idxInsert_length_fresh (idx : Index) (k v : Nat)
    (h : idxLookup idx k = none) :
    (idxInsert idx k v).length = idx.length + 1 := by
  unfold idxLookup at h
  have h2 : idx.find? (fun p => p.1 == k) = none := by
    cases hf : idx.find? (fun p => p.1 == k) with
    | none => rfl
    | some p => rw [hf] at h; simp at h
  have h3 : idx.filter (fun p => p.1 != k) = idx := by
    rw [List.filter_eq_self]
    intro a ha
    have := List.find?_eq_none.mp h2 a ha
    simpa using this
  unfold idxInsert
  rw [h3, List.length_cons]

theorem scanIdx_lookup_not_mem (recs : List StoredRec) (base : Nat)
    (idx : Index) (i : Nat) (h : ∀ r ∈ recs, r.1 ≠ i) :
    idxLookup (scanIdx base idx recs) i = idxLookup idx i := by
  induction recs generalizing base idx with
  | nil => rfl
  | cons r rs ih =>
    rw [scanIdx, ih _ _ (fun x hx => h x (by simp [hx]))]
    exact idxLookup_insert_ne idx r.1 _ i (Ne.symm (h r (by simp)))

theorem scanIdx_lookup_get (recs : List StoredRec) (base : Nat) (idx : Index)
    (k : Nat) (hk : k < recs.length)
    (hnd : (recs.map (fun r => r.1)).Nodup) :
    idxLookup (scanIdx base idx recs) ((recs.get ⟨k, hk⟩).1) =
      some (HEADER_SIZE + base + (bodyOf (recs.take k)).length) := by
  induction recs generalizing base idx k with
  | nil => exact absurd hk (by simp)
  | cons r rs ih =>
    simp only [List.map_cons, List.nodup_cons, List.mem_map] at hnd
    cases k with
    | zero =>
      rw [scanIdx]
      have hne : ∀ x ∈ rs, x.1 ≠ (((r :: rs).get ⟨0, hk⟩).1) := by
        intro x hx
        exact fun e => hnd.1 ⟨x, hx, e⟩
      rw [scanIdx_lookup_not_mem rs _ _ _ hne]
      simp only [List.get_cons_zero, List.take_zero, bodyOf_nil,
        List.length_nil, Nat.add_zero]
      exact idxLookup_insert_self idx r.1 (HEADER_SIZE + base)
    | succ k' =>
      rw [scanIdx]
      have hk' : k' < rs.length := by
        simp only [List.length_cons] at hk
        omega
      have := ih (base + (serStored r).length)
        (idxInsert idx r.1 (HEADER_SIZE + base)) k' hk' hnd.2
      have harr : HEADER_SIZE + (base + (serStored r).length) +
          (bodyOf (rs.take k')).length =
          HEADER_SIZE + base + (bodyOf ((r :: rs).take (k' + 1))).length := by
        simp only [List.take_succ_cons, bodyOf_cons, List.length_append]
        omega
      rw [harr] at this
      simpa using this

theorem scanIdx_length (recs : List StoredRec) (base : Nat) (idx : Index)
    (hnd : (recs.map (fun r => r.1)).Nodup)
    (hfresh : ∀ r ∈ recs, idxLookup idx r.1 = none) :
    (scanIdx base idx recs).length = idx.length + recs.length := by
  induction recs generalizing base idx with
  | nil => simp [scanIdx]
  | cons r rs ih =>
    simp only [List.map_cons, List.nodup_cons, List.mem_map] at hnd
    rw [scanIdx]
    rw [ih _ _ hnd.2 ?fresh]
    · rw [idxInsert_length_fresh idx r.1 _ (hfresh r (by simp)),
        List.length_cons]
      omega
    case fresh =>
      intro x hx
      rw [idxLookup_insert_ne idx r.1 _ x.1
        (fun e => hnd.1 ⟨x, hx, e⟩)]
      exact hfresh x (by simp [hx])

/-! ## The append path -/

/-- The stored records a run of appends produces, starting above a given
last id: ids count up from lastId + 1, checksums are the content CRC-32. -/
def recsOf : Nat → List RecInput → List StoredRec
  | _, [] => []
  | lid, inp :: rest => (lid + 1, inp, crc32 inp.content) :: recsOf (lid + 1) rest

theorem recsOf_length (lid : Nat) (inputs : List RecInput) :
    (recsOf lid inputs).length = inputs.length := by
  induction inputs generalizing lid with
  | nil => rfl
  | cons inp rest ih => simp [recsOf, ih]

theorem recsOf_map_fst (lid : Nat) (inputs : List RecInput) :
    (recsOf lid inputs).map (fun r => r.1) =
      List.range' (lid + 1) inputs.length := by
  induction inputs generalizing lid with
  | nil => rfl
  | cons inp rest ih =>
    simp [recsOf, List.range'_succ, ih]

theorem recsOf_mem (lid : Nat) (inputs : List RecInput) (r : StoredRec)
    (h : r ∈ recsOf lid inputs) :
    r.1 ≤ lid + inputs.length ∧ r.2.1 ∈ inputs := by
  induction inputs generalizing lid with
  | nil => exact absurd h (by simp [recsOf])
  | cons inp rest ih =>
    rw [recsOf, List.mem_cons] at h
    rcases h with h | h
    · subst h
      simp only [List.length_cons]
      exact ⟨by omega, by simp⟩
    · obtain ⟨h1, h2⟩ := ih (lid + 1) h
      simp only [List.length_cons]
      exact ⟨by omega, by simp [h2]⟩

theorem scanLast_recsOf (lid : Nat) (inputs : List RecInput) :
    scanLast lid (recsOf lid inputs) = lid + inputs.length := by
  induction inputs generalizing lid with
  | nil => rfl
  | cons inp rest ih =>
    rw [recsOf, scanLast, if_pos (by omega)]
    rw [ih (lid + 1)]
    simp only [List.length_cons]
    omega

theorem appendAll_ids (st : EngineState) (inputs : List RecInput) :
    (appendAll st inputs).1 = List.range' (st.lastId + 1) inputs.length := by
  induction inputs generalizing st with
  | nil => rfl
  | cons inp rest ih =>
    simp only [appendAll, appendWithVector, List.length_cons,
      List.range'_succ, ih]

theorem appendAll_file (st : EngineState) (inputs : List RecInput) :
    (appendAll st inputs).2.file = st.file ++ bodyOf (recsOf st.lastId inputs) := by
  induction inputs generalizing st with
  | nil => simp [appendAll, recsOf]
  | cons inp rest ih =>
    rw [appendAll]
    simp only [appendWithVector]
    rw [ih]
    rw [recsOf, bodyOf_cons, ← List.append_assoc]
    rfl

theorem appendAll_lastId (st : EngineState) (inputs : List RecInput) :
    (appendAll st inputs).2.lastId = st.lastId + inputs.length := by
  induction inputs generalizing st with
  | nil => simp [appendAll]
  | cons inp rest ih =>
    rw [appendAll]
    simp only [appendWithVector]
    rw [ih]
    simp only [List.length_cons]
    omega

theorem wfInput_bounds (inp : RecInput) (h : wfInput inp = true) :
    inp.content.length < 4294967296 ∧ inp.vector.length < 4294967296 ∧
    (∀ m, inp.metaBytes = some m →
      m.length < 4294967296 ∧ isJsonStrMap m = true) ∧
    isValidUtf8 inp.content = true ∧
    (∀ x ∈ inp.vector, x < 4294967296) ∧
    (∀ t, inp.ttl = some t → t < 18446744073709551616) ∧
    inp.timestamp < 18446744073709551616 := by
  simp only [wfInput, Bool.and_eq_true, decide_eq_true_eq,
    List.all_eq_true] at h
  obtain ⟨⟨⟨⟨⟨⟨h1, h2⟩, h3⟩, h4⟩, h5⟩, h6⟩, h7⟩ := h
  refine ⟨h1, h2, ?_, h4, ?_, ?_, h7⟩
  · intro m hm
    rw [hm] at h3
    simpa [Bool.and_eq_true, decide_eq_true_eq] using h3
  · intro x hx
    simpa using h5 x hx
  · intro t ht
    rw [ht] at h6
    simpa using h6

/-! ## Recovery: reopen after appends -/

/-- The engine state right after creating a store on a fresh (empty) file. -/
def freshState : EngineState := ⟨freshHeader, [], 0⟩

theorem freshHeader_length : freshHeader.length = 64 := rfl

theorem freshHeader_take : freshHeader.take 4 = MAGIC_BYTES := rfl

theorem mnemoNew_empty : mnemoNew [] = .ok freshState := rfl

/-- Full well-formedness of a stored record: the id fits u64 and the input
satisfies the append-side invariants. -/
def wfStoredFull (r : StoredRec) : Prop :=
  r.1 < 18446744073709551616 ∧ wfInput r.2.1 = true

theorem wfStoredFull_wfStored (r : StoredRec) (h : wfStoredFull r) :
    wfStored r := by
  obtain ⟨hid, hw⟩ := h
  obtain ⟨h1, h2, h3, _, _, _, _⟩ := wfInput_bounds r.2.1 hw
  exact ⟨hid, h1, h2, fun m hm => (h3 m hm).1⟩

/-- Reopening a header-plus-record-stream file recovers exactly the stream's
index and greatest id. -/
theorem mnemoNew_stream (recs : List StoredRec)
    (hwf : ∀ r ∈ recs, wfStored r) :
    mnemoNew (freshHeader ++ bodyOf recs) =
      .ok ⟨freshHeader ++ bodyOf recs, scanIdx 0 [] recs,
        scanLast 0 recs⟩ := by
  unfold mnemoNew
  rw [if_pos ⟨by simp [HEADER_SIZE, List.length_append, freshHeader_length],
    by rw [List.take_append_of_le_length (by rw [freshHeader_length]; omega),
      freshHeader_take]⟩]
  have hdrop : (freshHeader ++ bodyOf recs).drop HEADER_SIZE =
      bodyOf recs := by
    rw [show HEADER_SIZE = freshHeader.length from rfl, List.drop_left]
  rw [hdrop]
  have hscan := scanLoop_records recs [] [] 0 hwf
  simp only [List.nil_append, List.length_nil] at hscan
  unfold scanRecords
  rw [hscan]

/-- Reading back any stored record of a stream through the recovered index
returns exactly the record that was appended. -/
theorem readRecord_stream (recs : List StoredRec) (k : Nat)
    (hk : k < recs.length) (hnd : (recs.map (fun r => r.1)).Nodup)
    (hwf : ∀ r ∈ recs, wfStoredFull r) :
    readRecord (freshHeader ++ bodyOf recs) (scanIdx 0 [] recs)
        ((recs.get ⟨k, hk⟩).1) =
      Parse.ok ⟨(recs.get ⟨k, hk⟩).1, (recs.get ⟨k, hk⟩).2.1.content,
        (recs.get ⟨k, hk⟩).2.1.vector, (recs.get ⟨k, hk⟩).2.1.timestamp,
        (recs.get ⟨k, hk⟩).2.1.ttl, (recs.get ⟨k, hk⟩).2.1.metaBytes⟩ := by
  have hlook := scanIdx_lookup_get recs 0 [] k hk hnd
  unfold readRecord
  rw [hlook]
  obtain ⟨hid, hw⟩ := hwf _ (List.get_mem recs k hk)
  obtain ⟨h1, h2, h3, h4, h5, h6, h7⟩ :=
    wfInput_bounds (recs.get ⟨k, hk⟩).2.1 hw
  have hdec : freshHeader ++ bodyOf recs =
      (freshHeader ++ bodyOf (recs.take k)) ++
        serStored (recs.get ⟨k, hk⟩) ++ bodyOf (recs.drop (k + 1)) := by
    conv_lhs => rw [← List.take_append_drop k recs]
    rw [List.drop_eq_getElem_cons hk]
    simp only [bodyOf, List.map_append, List.flatten_append, List.map_cons,
      List.flatten_cons, List.append_assoc, List.get_eq_getElem]
  rw [hdec]
  have hoff : HEADER_SIZE + 0 + (bodyOf (recs.take k)).length =
      (freshHeader ++ bodyOf (recs.take k)).length := by
    rw [List.length_append, freshHeader_length]
    simp [HEADER_SIZE]
  rw [hoff]
  exact readRecordP_ser (freshHeader ++ bodyOf (recs.take k))
    (bodyOf (recs.drop (k + 1))) (recs.get ⟨k, hk⟩).1
    (recs.get ⟨k, hk⟩).2.1.timestamp (recs.get ⟨k, hk⟩).2.1.ttl
    (recs.get ⟨k, hk⟩).2.1.metaBytes (recs.get ⟨k, hk⟩).2.1.content
    (recs.get ⟨k, hk⟩).2.1.vector (recs.get ⟨k, hk⟩).2.2
    hid h7 h6 h1 h2 h3 h4 h5

theorem recsOf_get (lid : Nat) (inputs : List RecInput) (k : Nat)
    (hk : k < inputs.length) :
    (recsOf lid inputs).get ⟨k, by rw [recsOf_length]; exact hk⟩ =
      (lid + k + 1, inputs.get ⟨k, hk⟩,
        crc32 (inputs.get ⟨k, hk⟩).content) := by
  induction inputs generalizing lid k with
  | nil => exact absurd hk (by simp)
  | cons inp rest ih =>
    cases k with
    | zero => simp [recsOf]
    | succ k' =>
      have hk' : k' < rest.length := by
        simp only [List.length_cons] at hk
        omega
      have h := ih (lid + 1) k' hk'
      have harith : lid + 1 + k' + 1 = lid + (k' + 1) + 1 := by omega
      rw [harith] at h
      simpa [recsOf] using h

/-! ## Claim theorems -/

/-- C1: for every sequence of successful appends on a freshly created store,
dropping the handle and reopening restores the engine by scan: the open
succeeds, count equals the number of appends, and every id in 1..N reads
back a record whose content, vector and metadata (and timestamp and ttl) are
byte-identical to what was passed to the corresponding append. -/
theorem C1_recovery_roundtrip (inputs : List RecInput)
    (hwf : ∀ inp ∈ inputs, wfInput inp = true)
    (hN : inputs.length < 18446744073709551616) :
    ∃ st' : EngineState,
      mnemoNew ((appendAll freshState inputs).2.file) = .ok st' ∧
      count st' = inputs.length ∧
      ∀ k : Nat, ∀ hk : k < inputs.length,
        readRecord st'.file st'.index (k + 1) =
          Parse.ok ⟨k + 1, (inputs.get ⟨k, hk⟩).content,
            (inputs.get ⟨k, hk⟩).vector, (inputs.get ⟨k, hk⟩).timestamp,
            (inputs.get ⟨k, hk⟩).ttl, (inputs.get ⟨k, hk⟩).metaBytes⟩ := by
  have hwfr : ∀ r ∈ recsOf 0 inputs, wfStoredFull r := by
    intro r hr
    obtain ⟨hle, hmem⟩ := recsOf_mem 0 inputs r hr
    exact ⟨by omega, hwf _ hmem⟩
  have hwfs : ∀ r ∈ recsOf 0 inputs, wfStored r :=
    fun r hr => wfStoredFull_wfStored r (hwfr r hr)
  have hnd : ((recsOf 0 inputs).map (fun r => r.1)).Nodup := by
    rw [recsOf_map_fst]
    exact List.nodup_range' _ _
  have hfile : (appendAll freshState inputs).2.file =
      freshHeader ++ bodyOf (recsOf 0 inputs) := by
    have h := appendAll_file freshState inputs
    simpa [freshState] using h
  refine ⟨⟨freshHeader ++ bodyOf (recsOf 0 inputs),
    scanIdx 0 [] (recsOf 0 inputs), scanLast 0 (recsOf 0 inputs)⟩,
    ?_, ?_, ?_⟩
  · rw [hfile]
    exact mnemoNew_stream (recsOf 0 inputs) hwfs
  · simp only [count]
    rw [scanIdx_length (recsOf 0 inputs) 0 [] hnd (fun r _ => rfl)]
    simp [recsOf_length]
  · intro k hk
    have hk2 : k < (recsOf 0 inputs).length := by
      rw [recsOf_length]
      exact hk
    have h := readRecord_stream (recsOf 0 inputs) k hk2 hnd hwfr
    have hget := recsOf_get 0 inputs k hk
    rw [hget] at h
    rw [show (0 : Nat) + k + 1 = k + 1 from by omega] at h
    exact h

/-- Concrete input exercising metadata and ttl: content "hi", a two-entry
vector, metadata bytes of a one-pair JSON object, ttl 7. -/
def w1 : RecInput :=
  ⟨[104, 105], [5, 4294967295],
   some [0x7B, 0x22, 0x6B, 0x22, 0x3A, 0x22, 0x76, 0x22, 0x7D],
   some 7, 1700000000⟩

/-- Witness for C1 at the concrete one-append store. -/
theorem C1_recovery_roundtrip_witness :
    ∃ st' : EngineState,
      mnemoNew ((appendAll freshState [w1]).2.file) = .ok st' ∧
      count st' = [w1].length ∧
      ∀ k : Nat, ∀ hk : k < [w1].length,
        readRecord st'.file st'.index (k + 1) =
          Parse.ok ⟨k + 1, ([w1].get ⟨k, hk⟩).content,
            ([w1].get ⟨k, hk⟩).vector, ([w1].get ⟨k, hk⟩).timestamp,
            ([w1].get ⟨k, hk⟩).ttl, ([w1].get ⟨k, hk⟩).metaBytes⟩ :=
  C1_recovery_roundtrip [w1] (by decide) (by decide)

/-- C7: every append assigns id lastId + 1, so a run of appends on a fresh
store returns exactly the contiguous strictly increasing ids 1, 2, ..., N. -/
theorem C7_id_monotonic :
    (∀ (st : EngineState) (inp : RecInput),
      (appendWithVector st inp).1 = st.lastId + 1) ∧
    (∀ inputs : List RecInput,
      (appendAll freshState inputs).1 = List.range' 1 inputs.length) := by
  constructor
  · intro st inp
    rfl
  · intro inputs
    have h := appendAll_ids freshState inputs
    simpa [freshState] using h

/-- C8: open treats the file as valid exactly when it is at least 64 bytes
long and starts with the magic MNMO, in which case it reads the version and
scans from offset 64 leaving the file bytes unchanged; in every other case it
truncates and writes a fresh 64-byte header carrying version 3. -/
theorem C8_open_dispatch (f : List Nat) :
    (HEADER_SIZE ≤ f.length ∧ f.take 4 = MAGIC_BYTES →
      mnemoNew f =
        match scanRecords (leU16 ((f.drop 4).take 2)) (f.drop HEADER_SIZE) with
        | .ok idx lid => .ok ⟨f, idx, lid⟩
        | .crash => .crash) ∧
    (¬ (HEADER_SIZE ≤ f.length ∧ f.take 4 = MAGIC_BYTES) →
      mnemoNew f = .ok ⟨freshHeader, [], 0⟩) ∧
    freshHeader.length = 64 ∧
    freshHeader = MAGIC_BYTES ++ u16le CURRENT_VERSION ++
      List.replicate 58 0 ∧
    CURRENT_VERSION = 3 := by
  refine ⟨?_, ?_, rfl, rfl, rfl⟩
  · intro h
    unfold mnemoNew
    rw [if_pos h]
  · intro h
    unfold mnemoNew
    rw [if_neg h]

/-- Witness for C8: a populated file whose magic bytes were zeroed is
reinitialized; a magic-bearing 64-byte file opens by scanning its (empty)
body and is kept as is. -/
theorem C8_open_dispatch_witness :
    mnemoNew (List.replicate 100 0) = .ok ⟨freshHeader, [], 0⟩ ∧
    mnemoNew freshHeader = .ok ⟨freshHeader, [], 0⟩ := by
  constructor
  · exact (C8_open_dispatch (List.replicate 100 0)).2.1 (by decide)
  · have h := (C8_open_dispatch freshHeader).1 (by decide)
    rw [h]
    have hbody : freshHeader.drop HEADER_SIZE = [] := by decide
    rw [hbody]
    unfold scanRecords
    rw [scanLoop_stop [] 0 [] 0 (by decide)]

/-- C5: read_record returns not-found when the id is absent from the Offset
Index, when the four bytes at the indexed offset are not the sync marker, and
when the embedded id at the offset differs from the requested id. -/
theorem C5_read_notfound (file : List Nat) (index : Index) (id : Nat) :
    (idxLookup index id = none →
      readRecord file index id = Parse.notFound) ∧
    (∀ off sy, idxLookup index id = some off →
      getRange file off 4 = some sy → sy ≠ SYNC_MARKER →
      readRecord file index id = Parse.notFound) ∧
    (∀ off idB, idxLookup index id = some off →
      getRange file off 4 = some SYNC_MARKER →
      getRange file (off + 4) 8 = some idB → leU64 idB ≠ id →
      readRecord file index id = Parse.notFound) := by
  refine ⟨?_, ?_, ?_⟩
  · intro h
    unfold readRecord
    rw [h]
  · intro off sy hlook hsy hne
    unfold readRecord
    rw [hlook]
    show readRecordP file off id = Parse.notFound
    unfold readRecordP
    rw [hsy]
    simp only [liftSlice_some, parseBind_ok]
    rw [if_pos hne]
  · intro off idB hlook hsy hid hne
    unfold readRecord
    rw [hlook]
    show readRecordP file off id = Parse.notFound
    unfold readRecordP
    rw [hsy, hid]
    simp only [liftSlice_some, parseBind_ok]
    rw [if_neg (show ¬ SYNC_MARKER ≠ SYNC_MARKER from by simp),
      if_pos hne]

/-- Witness for C5: the three not-found paths at concrete stores.  The file
is a fresh header followed by one record whose embedded id is 1. -/
theorem C5_read_notfound_witness :
    readRecord (freshHeader ++ serRecord 1 0 none none [] [] 0) [] 5 =
      Parse.notFound ∧
    readRecord (List.replicate 70 0) [(1, 2)] 1 = Parse.notFound ∧
    readRecord (freshHeader ++ serRecord 1 0 none none [] [] 0)
      [(2, 64)] 2 = Parse.notFound := by
  refine ⟨?_, ?_, ?_⟩
  · exact (C5_read_notfound _ [] 5).1 rfl
  · exact (C5_read_notfound (List.replicate 70 0) [(1, 2)] 1).2.1 2
      [0, 0, 0, 0] (by decide) (by decide) (by decide)
  · exact (C5_read_notfound (freshHeader ++ serRecord 1 0 none none [] [] 0)
      [(2, 64)] 2).2.2 64 (u64le 1) (by decide) (by decide) (by decide)
      (by decide)

/-- A 17-byte body that begins with the sync marker: 4 marker bytes, 8 id
bytes (id 2), a zero flags byte, and 4 of the 8 timestamp bytes. -/
def c6Body : List Nat :=
  SYNC_MARKER ++ [2, 0, 0, 0, 0, 0, 0, 0] ++ [0] ++ [0, 0, 0, 0]

/-- C6 counterexample: scan_records' loop bound is pos + 17, not pos + 21 as
the claim states.  On a 17-byte body that starts with the sync marker the
claim predicts the walk stops immediately with an empty index; the code
attempts to decode and panics reading the content length slice. -/
theorem C6_counterexample : scanLoop c6Body 0 [] 0 = ScanResult.crash := by
  rw [scanLoop, dif_pos (by decide), if_pos (by decide),
    show scanStep c6Body 0 = none from by decide]

/-- C6 amended: scan stops walking the body exactly when fewer than 17 bytes
remain; with 17 or more bytes left and the sync marker present it does
attempt to decode a record (and crashes when a length slice escapes the
buffer). -/
theorem C6_scan_stop_bound :
    (∀ (buffer : List Nat) (pos : Nat) (index : Index) (lastId : Nat),
      buffer.length < pos + 17 →
      scanLoop buffer pos index lastId = .ok index lastId) ∧
    (∀ (buffer : List Nat) (pos : Nat) (index : Index) (lastId : Nat),
      pos + 17 ≤ buffer.length →
      getRange buffer pos 4 = some SYNC_MARKER →
      scanStep buffer pos = none →
      scanLoop buffer pos index lastId = .crash) := by
  constructor
  · exact fun b p i l h => scanLoop_stop b p i l h
  · intro b p i l hg hm hs
    exact scanLoop_crash b p i l hg hm hs

/-- Witness for the amended C6: a one-byte body stops untouched; the 17-byte
marker-led body is decoded and crashes. -/
theorem C6_scan_stop_bound_witness :
    scanLoop [0xFA] 0 [] 0 = ScanResult.ok [] 0 ∧
    scanLoop c6Body 0 [] 0 = ScanResult.crash := by
  constructor
  · exact C6_scan_stop_bound.1 [0xFA] 0 [] 0 (by decide)
  · exact C6_scan_stop_bound.2 c6Body 0 [] 0 (by decide) (by decide)
      (by decide)

/-- The file after one append of empty content and vector (timestamp 0)
followed by a torn tail: the first 17 bytes of a second record, as left by a
crash mid-append. -/
def c2File : List Nat :=
  freshHeader ++ serRecord 1 0 none none [] [] 0 ++
    (serRecord 2 0 none none [] [] 0).take 17

/-- C2: reopening a file with one complete record and a torn tail whose sync
marker and id survived does not succeed: the scan decodes at the torn marker
and panics reading the content length slice past end of file (mnemo.rs line
264), where the claim promises a successful reopen with the torn tail
skipped. -/
theorem C2_torn_tail_crash : mnemoNew c2File = OpenResult.crash := by
  unfold mnemoNew
  rw [if_pos (by decide)]
  have hbody : c2File.drop HEADER_SIZE =
      serRecord 1 0 none none [] [] 0 ++
        (serRecord 2 0 none none [] [] 0).take 17 := by decide
  rw [hbody]
  unfold scanRecords
  have hstep := scanLoop_step [] ((serRecord 2 0 none none [] [] 0).take 17)
    1 0 none none [] [] 0 [] 0 (by decide) (by decide) (by decide) (by simp)
  simp only [List.nil_append, List.length_nil] at hstep
  rw [hstep]
  rw [scanLoop_crash
    (serRecord 1 0 none none [] [] 0 ++
      (serRecord 2 0 none none [] [] 0).take 17)
    (0 + (serRecord 1 0 none none [] [] 0).length) _ _
    (by decide) (by decide) (by decide)]

/-- C4 counterexample: a record whose metadata bytes are not valid JSON (two
ascii x bytes) is indexed at its true offset, yet read_record propagates the
serde_json error (the question-mark operator at mnemo.rs line 209) instead of
returning not-found as the claim states. -/
theorem C4_counterexample :
    readRecord (freshHeader ++ serRecord 1 0 none (some [120, 120]) [] [] 0)
        [(1, 64)] 1 = Parse.err ∧
    (Parse.err : Parse MnemoRecord) ≠ Parse.notFound := by
  constructor
  · decide
  · decide

/-- C4 amended: malformed metadata bytes (not valid JSON) and non-UTF-8
content bytes make read_record propagate an error, and a content length
running past the end of the mapping makes it panic; not-found is reserved for
the missing-entry, missing-marker and id-mismatch paths. -/
theorem C4_read_malformed :
    (∀ (pre post : List Nat) (id ts : Nat) (m content vector : List Nat)
      (crc : Nat), id < 18446744073709551616 → m.length < 4294967296 →
      isJsonStrMap m = false →
      readRecordP
        (pre ++ serRecord id ts none (some m) content vector crc ++ post)
        pre.length id = Parse.err) ∧
    (∀ (pre post : List Nat) (id ts : Nat) (content vector : List Nat)
      (crc : Nat), id < 18446744073709551616 →
      content.length < 4294967296 → isValidUtf8 content = false →
      readRecordP
        (pre ++ serRecord id ts none none content vector crc ++ post)
        pre.length id = Parse.err) ∧
    (∀ (pre : List Nat) (id ts clen : Nat), id < 18446744073709551616 →
      0 < clen → clen < 4294967296 →
      readRecordP
        (pre ++ SYNC_MARKER ++ u64le id ++ [0] ++ u64le ts ++ u32le clen)
        pre.length id = Parse.crash) := by
  refine ⟨?_, ?_, ?_⟩
  · intro pre post id ts m content vector crc hid hm hjson
    have hb : pre ++ serRecord id ts none (some m) content vector crc ++
        post = ([pre, SYNC_MARKER, u64le id, [flagsOf none (some m)],
          u64le ts, u32le m.length, m, u32le content.length, content,
          u32le vector.length, (vector.map u32le).flatten,
          u32le crc]).flatten ++ post := by
      simp [serRecord, List.append_assoc]
    rw [hb]
    have r0 := getRange_chunks [pre, SYNC_MARKER, u64le id,
      [flagsOf none (some m)], u64le ts, u32le m.length, m,
      u32le content.length, content, u32le vector.length,
      (vector.map u32le).flatten, u32le crc]
      [pre] [u64le id, [flagsOf none (some m)], u64le ts, u32le m.length, m,
        u32le content.length, content, u32le vector.length,
        (vector.map u32le).flatten, u32le crc]
      SYNC_MARKER post pre.length 4 rfl (by simp) (by simp)
    have r1 := getRange_chunks [pre, SYNC_MARKER, u64le id,
      [flagsOf none (some m)], u64le ts, u32le m.length, m,
      u32le content.length, content, u32le vector.length,
      (vector.map u32le).flatten, u32le crc]
      [pre, SYNC_MARKER] [[flagsOf none (some m)], u64le ts, u32le m.length,
        m, u32le content.length, content, u32le vector.length,
        (vector.map u32le).flatten, u32le crc]
      (u64le id) post (pre.length + 4) 8 rfl (by simp) (by simp)
    have r2 := readByteAt_chunks [pre, SYNC_MARKER, u64le id,
      [flagsOf none (some m)], u64le ts, u32le m.length, m,
      u32le content.length, content, u32le vector.length,
      (vector.map u32le).flatten, u32le crc]
      [pre, SYNC_MARKER, u64le id] [u64le ts, u32le m.length, m,
        u32le content.length, content, u32le vector.length,
        (vector.map u32le).flatten, u32le crc]
      (flagsOf none (some m)) post (pre.length + 12) rfl (by simp)
    have r3 := getRange_chunks [pre, SYNC_MARKER, u64le id,
      [flagsOf none (some m)], u64le ts, u32le m.length, m,
      u32le content.length, content, u32le vector.length,
      (vector.map u32le).flatten, u32le crc]
      [pre, SYNC_MARKER, u64le id, [flagsOf none (some m)]]
      [u32le m.length, m, u32le content.length, content,
        u32le vector.length, (vector.map u32le).flatten, u32le crc]
      (u64le ts) post (pre.length + 13) 8 rfl (by simp) (by simp)
    have r5 := getRange_chunks [pre, SYNC_MARKER, u64le id,
      [flagsOf none (some m)], u64le ts, u32le m.length, m,
      u32le content.length, content, u32le vector.length,
      (vector.map u32le).flatten, u32le crc]
      [pre, SYNC_MARKER, u64le id, [flagsOf none (some m)], u64le ts]
      [m, u32le content.length, content, u32le vector.length,
        (vector.map u32le).flatten, u32le crc]
      (u32le m.length) post (pre.length + 21) 4 rfl (by simp) (by simp)
    have r6 := getRange_chunks [pre, SYNC_MARKER, u64le id,
      [flagsOf none (some m)], u64le ts, u32le m.length, m,
      u32le content.length, content, u32le vector.length,
      (vector.map u32le).flatten, u32le crc]
      [pre, SYNC_MARKER, u64le id, [flagsOf none (some m)], u64le ts,
        u32le m.length]
      [u32le content.length, content, u32le vector.length,
        (vector.map u32le).flatten, u32le crc]
      (m) post (pre.length + 21 + 4) m.length rfl
      (by simp only [List.flatten_cons, List.flatten_nil, List.length_append,
        List.length_cons, List.length_nil, u64le_length, u32le_length,
        SYNC_MARKER_length, List.append_nil] <;> omega) rfl
    simp only [readRecordP, r0, r1, r2, r3, r5, r6, liftSlice_some,
      parseBind_ok, parseBind_err, parsePure, hasFlag_ttl, hasFlag_meta, Option.isSome_some,
      Option.isSome_none, Bool.false_eq_true, if_false, if_true, ne_eq,
      eq_self_iff_true, not_true, leU64_u64le id hid,
      leU32_u32le m.length hm, hjson]
  · intro pre post id ts content vector crc hid hc hutf
    have hb : pre ++ serRecord id ts none none content vector crc ++ post =
        ([pre, SYNC_MARKER, u64le id, [flagsOf none none], u64le ts,
          u32le content.length, content, u32le vector.length,
          (vector.map u32le).flatten, u32le crc]).flatten ++ post := by
      simp [serRecord, List.append_assoc]
    rw [hb]
    have r0 := getRange_chunks [pre, SYNC_MARKER, u64le id,
      [flagsOf none none], u64le ts, u32le content.length, content,
      u32le vector.length, (vector.map u32le).flatten, u32le crc]
      [pre] [u64le id, [flagsOf none none], u64le ts, u32le content.length,
        content, u32le vector.length, (vector.map u32le).flatten, u32le crc]
      SYNC_MARKER post pre.length 4 rfl (by simp) (by simp)
    have r1 := getRange_chunks [pre, SYNC_MARKER, u64le id,
      [flagsOf none none], u64le ts, u32le content.length, content,
      u32le vector.length, (vector.map u32le).flatten, u32le crc]
      [pre, SYNC_MARKER] [[flagsOf none none], u64le ts,
        u32le content.length, content, u32le vector.length,
        (vector.map u32le).flatten, u32le crc]
      (u64le id) post (pre.length + 4) 8 rfl (by simp) (by simp)
    have r2 := readByteAt_chunks [pre, SYNC_MARKER, u64le id,
      [flagsOf none none], u64le ts, u32le content.length, content,
      u32le vector.length, (vector.map u32le).flatten, u32le crc]
      [pre, SYNC_MARKER, u64le id] [u64le ts, u32le content.length, content,
        u32le vector.length, (vector.map u32le).flatten, u32le crc]
      (flagsOf none none) post (pre.length + 12) rfl (by simp)
    have r3 := getRange_chunks [pre, SYNC_MARKER, u64le id,
      [flagsOf none none], u64le ts, u32le content.length, content,
      u32le vector.length, (vector.map u32le).flatten, u32le crc]
      [pre, SYNC_MARKER, u64le id, [flagsOf none none]]
      [u32le content.length, content, u32le vector.length,
        (vector.map u32le).flatten, u32le crc]
      (u64le ts) post (pre.length + 13) 8 rfl (by simp) (by simp)
    have r7 := getRange_chunks [pre, SYNC_MARKER, u64le id,
      [flagsOf none none], u64le ts, u32le content.length, content,
      u32le vector.length, (vector.map u32le).flatten, u32le crc]
      [pre, SYNC_MARKER, u64le id, [flagsOf none none], u64le ts]
      [content, u32le vector.length, (vector.map u32le).flatten, u32le crc]
      (u32le content.length) post (pre.length + 21) 4 rfl (by simp)
      (by simp)
    have r8 := getRange_chunks [pre, SYNC_MARKER, u64le id,
      [flagsOf none none], u64le ts, u32le content.length, content,
      u32le vector.length, (vector.map u32le).flatten, u32le crc]
      [pre, SYNC_MARKER, u64le id, [flagsOf none none], u64le ts,
        u32le content.length]
      [u32le vector.length, (vector.map u32le).flatten, u32le crc]
      (content) post (pre.length + 21 + 4) content.length rfl
      (by simp only [List.flatten_cons, List.flatten_nil, List.length_append,
        List.length_cons, List.length_nil, u64le_length, u32le_length,
        SYNC_MARKER_length, List.append_nil] <;> omega) rfl
    simp only [readRecordP, r0, r1, r2, r3, r7, r8, liftSlice_some,
      parseBind_ok, parseBind_err, parsePure, hasFlag_ttl, hasFlag_meta,
      Option.isSome_none,
      Bool.false_eq_true, if_false, if_true, ne_eq, eq_self_iff_true,
      not_true, leU64_u64le id hid, leU32_u32le content.length hc, hutf,
      not_false_iff]
  · intro pre id ts clen hid hpos hclen
    have hb : pre ++ SYNC_MARKER ++ u64le id ++ [0] ++ u64le ts ++
        u32le clen =
        ([pre, SYNC_MARKER, u64le id, [0], u64le ts, u32le clen]).flatten ++
          [] := by
      simp [List.append_assoc]
    rw [hb]
    have r0 := getRange_chunks [pre, SYNC_MARKER, u64le id, [0], u64le ts,
      u32le clen] [pre] [u64le id, [0], u64le ts, u32le clen]
      SYNC_MARKER [] pre.length 4 rfl (by simp) (by simp)
    have r1 := getRange_chunks [pre, SYNC_MARKER, u64le id, [0], u64le ts,
      u32le clen] [pre, SYNC_MARKER] [[0], u64le ts, u32le clen]
      (u64le id) [] (pre.length + 4) 8 rfl (by simp) (by simp)
    have r2 := readByteAt_chunks [pre, SYNC_MARKER, u64le id, [0], u64le ts,
      u32le clen] [pre, SYNC_MARKER, u64le id] [u64le ts, u32le clen]
      (0) [] (pre.length + 12) rfl (by simp)
    have r3 := getRange_chunks [pre, SYNC_MARKER, u64le id, [0], u64le ts,
      u32le clen] [pre, SYNC_MARKER, u64le id, [0]] [u32le clen]
      (u64le ts) [] (pre.length + 13) 8 rfl (by simp) (by simp)
    have r7 := getRange_chunks [pre, SYNC_MARKER, u64le id, [0], u64le ts,
      u32le clen] [pre, SYNC_MARKER, u64le id, [0], u64le ts] []
      (u32le clen) [] (pre.length + 21) 4 rfl (by simp) (by simp)
    have r8 : getRange
        (([pre, SYNC_MARKER, u64le id, [0], u64le ts,
          u32le clen]).flatten ++ []) (pre.length + 21 + 4) (leU32
          (u32le clen)) = none := by
      apply getRange_none
      simp only [List.flatten_cons, List.flatten_nil, List.length_append,
        List.length_cons, List.length_nil, u64le_length, u32le_length,
        SYNC_MARKER_length, List.append_nil]
      rw [leU32_u32le clen hclen]
      omega
    simp only [readRecordP, r0, r1, r2, r3, r7, r8, liftSlice_some,
      liftSlice_none, parseBind_ok, parseBind_crash, parsePure, ne_eq,
      eq_self_iff_true, not_true, if_false, if_true,
      leU64_u64le id hid,
      show hasFlag 0 FLAG_HAS_TTL = false from rfl,
      show hasFlag 0 FLAG_HAS_METADATA = false from rfl,
      Bool.false_eq_true]

/-- Witness for the amended C4: malformed metadata errs, non-UTF-8 content
errs, an oversized content length crashes. -/
theorem C4_read_malformed_witness :
    readRecordP (freshHeader ++
        serRecord 1 0 none (some [120, 120]) [] [] 0 ++ [])
      freshHeader.length 1 = Parse.err ∧
    readRecordP (freshHeader ++ serRecord 1 0 none none [255] [] 0 ++ [])
      freshHeader.length 1 = Parse.err ∧
    readRecordP (freshHeader ++ SYNC_MARKER ++ u64le 1 ++ [0] ++ u64le 0 ++
        u32le 5) freshHeader.length 1 = Parse.crash := by
  refine ⟨?_, ?_, ?_⟩
  · exact C4_read_malformed.1 freshHeader [] 1 0 [120, 120] [] [] 0
      (by decide) (by decide) (by decide)
  · exact C4_read_malformed.2.1 freshHeader [] 1 0 [255] [] 0
      (by decide) (by decide) (by decide)
  · exact C4_read_malformed.2.2 freshHeader 1 0 5
      (by decide) (by decide) (by decide)

/-! ## The facade: search_raw and recall -/

theorem emitLoop_never_argumentError (file : List Nat) (index : Index)
    (ids : List Nat) (acc : List (List Nat × Option (List Nat))) :
    emitLoop file index ids acc ≠
      FacadeOutcome.error PyErrKind.argumentError := by
  induction ids generalizing acc with
  | nil => simp [emitLoop]
  | cons id rest ih =>
    cases h : readRecord file index id with
    | ok r =>
      rw [emitLoop, h]
      exact ih _
    | notFound =>
      rw [emitLoop, h]
      exact ih _
    | err =>
      rw [emitLoop, h]
      simp
    | crash =>
      rw [emitLoop, h]
      simp

/-- A model ANN search used at concrete stores: always returns id 1. -/
def annModel1 : List Nat → Nat → Nat → List Nat := fun _ _ _ => [1]

/-- A store whose single record has a 2-entry vector: the store's dimension
is 2. -/
def c3Store : EngineState :=
  ⟨freshHeader ++ serRecord 1 0 none none [104] [7, 9] 0, [(1, 64)], 1⟩

/-- C3 counterexample: search_raw with a query vector of length 3 against a
store of dimension 2 (and an embedder dimension that is not 3 either)
returns an ordinary result list, not an ArgumentError: the source performs
no dimension check before handing the vector to the ANN search. -/
theorem C3_counterexample :
    searchRaw annModel1 c3Store [0, 0, 0] 5 =
      FacadeOutcome.ok [([104], none)] := by
  decide

/-- C3 amended: search_raw never rejects a vector: for every ANN search
function, store state, query vector of any length, and limit, the outcome is
never an ArgumentError (the only error the loop can surface is a runtime
error from read_record); the store state is not modified, search_raw only
reads it. -/
theorem C3_searchRaw_no_dimension_check :
    ∀ (annSearch : List Nat → Nat → Nat → List Nat) (st : EngineState)
      (v : List Nat) (k : Nat),
      searchRaw annSearch st v k ≠
        FacadeOutcome.error PyErrKind.argumentError := by
  intro annSearch st v k
  exact emitLoop_never_argumentError st.file st.index _ []

/-- What the result loop emits for one id: the content and metadata when the
read finds the record, nothing otherwise. -/
def emitOne (file : List Nat) (index : Index) (id : Nat) :
    Option (List Nat × Option (List Nat)) :=
  match readRecord file index id with
  | .ok r => some (r.content, r.metadata)
  | _ => none

theorem emitLoop_ok (file : List Nat) (index : Index) (ids : List Nat)
    (acc out : List (List Nat × Option (List Nat)))
    (h : emitLoop file index ids acc = .ok out) :
    out = acc ++ ids.filterMap (emitOne file index) := by
  induction ids generalizing acc with
  | nil =>
    rw [emitLoop] at h
    cases h
    simp
  | cons id rest ih =>
    rw [emitLoop] at h
    cases hr : readRecord file index id with
    | ok r =>
      rw [hr] at h
      have := ih _ h
      rw [this]
      simp [List.filterMap_cons, emitOne, hr]
    | notFound =>
      rw [hr] at h
      have := ih _ h
      rw [this]
      simp [List.filterMap_cons, emitOne, hr]
    | err =>
      rw [hr] at h
      cases h
    | crash =>
      rw [hr] at h
      cases h

/-- C9: when recall succeeds and the ANN search honors its contract of
returning at most k ids, the output pairs are exactly the found records of
the searched ids in the search's order (ids whose read finds nothing are
skipped), and the output length is at most k.  The search is invoked with
ef 100 on the embedded query, as recallQuery's definition fixes. -/
theorem C9_recall_spec (embed : List Nat → List Nat)
    (annSearch : List Nat → Nat → Nat → List Nat) (st : EngineState)
    (query : List Nat) (k : Nat)
    (out : List (List Nat × Option (List Nat)))
    (hlen : (annSearch (embed query) k 100).length ≤ k)
    (h : recallQuery embed annSearch st query k = .ok out) :
    out = (annSearch (embed query) k 100).filterMap
      (emitOne st.file st.index) ∧ out.length ≤ k := by
  have hout := emitLoop_ok st.file st.index _ [] out h
  refine ⟨by simpa using hout, ?_⟩
  rw [hout]
  simp only [List.nil_append]
  calc ((annSearch (embed query) k 100).filterMap
      (emitOne st.file st.index)).length
      ≤ (annSearch (embed query) k 100).length :=
        List.length_filterMap_le _ _
    _ ≤ k := hlen

/-- A model embedder of dimension 2. -/
def embedModel : List Nat → List Nat := fun _ => [0, 0]

/-- Witness for C9 at a one-record store with a one-id ANN result. -/
theorem C9_recall_spec_witness :
    [([104], (none : Option (List Nat)))] =
      (annModel1 (embedModel [104]) 1 100).filterMap
        (emitOne c3Store.file c3Store.index) ∧
    [([104], (none : Option (List Nat)))].length ≤ 1 :=
  C9_recall_spec embedModel annModel1 c3Store [104] 1 [([104], none)]
    (by decide) (by decide)

/-! ## C10: the checksum field is written but never read back -/

/-- Pair a list of (id, input) records with per-record checksum field
values. -/
def withCrcs (rs : List (Nat × RecInput)) (crcs : List Nat) :
    List StoredRec :=
  List.zipWith (fun r c => (r.1, r.2, c)) rs crcs

theorem withCrcs_map_fst (rs : List (Nat × RecInput)) (crcs : List Nat)
    (h : crcs.length = rs.length) :
    (withCrcs rs crcs).map (fun r => r.1) = rs.map (fun r => r.1) := by
  induction rs generalizing crcs with
  | nil => simp [withCrcs]
  | cons r rest ih =>
    cases crcs with
    | nil => simp at h
    | cons c cs =>
      simp only [withCrcs, List.zipWith_cons_cons, List.map_cons]
      rw [show List.zipWith (fun r c => (r.1, r.2, c)) rest cs =
        withCrcs rest cs from rfl]
      rw [ih cs (by simpa using h)]

theorem withCrcs_length (rs : List (Nat × RecInput)) (crcs : List Nat)
    (h : crcs.length = rs.length) :
    (withCrcs rs crcs).length = rs.length := by
  simp [withCrcs, List.length_zipWith, h]

theorem withCrcs_mem (rs : List (Nat × RecInput)) (crcs : List Nat)
    (x : StoredRec) (h : x ∈ withCrcs rs crcs) : (x.1, x.2.1) ∈ rs := by
  induction rs generalizing crcs with
  | nil => simp [withCrcs] at h
  | cons r rest ih =>
    cases crcs with
    | nil => simp [withCrcs] at h
    | cons c cs =>
      simp only [withCrcs, List.zipWith_cons_cons, List.mem_cons] at h
      rcases h with h | h
      · subst h
        simp
      · exact List.mem_cons.mpr (Or.inr (ih cs h))

theorem withCrcs_get (rs : List (Nat × RecInput)) (crcs : List Nat)
    (k : Nat) (hk : k < (withCrcs rs crcs).length) (hk1 : k < rs.length)
    (hk2 : k < crcs.length) :
    (withCrcs rs crcs).get ⟨k, hk⟩ =
      ((rs.get ⟨k, hk1⟩).1, (rs.get ⟨k, hk1⟩).2, crcs.get ⟨k, hk2⟩) := by
  simp [withCrcs, List.get_eq_getElem, List.getElem_zipWith]

theorem serStored_length_crc (i : Nat) (inp : RecInput) (c₁ c₂ : Nat) :
    (serStored (i, inp, c₁)).length = (serStored (i, inp, c₂)).length := by
  simp [serStored, serOfInput, serRecord_length]

theorem scanIdx_withCrcs (rs : List (Nat × RecInput))
    (crcs₁ crcs₂ : List Nat) (h₁ : crcs₁.length = rs.length)
    (h₂ : crcs₂.length = rs.length) (base : Nat) (idx : Index) :
    scanIdx base idx (withCrcs rs crcs₁) =
      scanIdx base idx (withCrcs rs crcs₂) := by
  induction rs generalizing crcs₁ crcs₂ base idx with
  | nil =>
    cases crcs₁ <;> cases crcs₂ <;> simp_all [withCrcs]
  | cons r rest ih =>
    cases crcs₁ with
    | nil => simp at h₁
    | cons c₁ cs₁ =>
      cases crcs₂ with
      | nil => simp at h₂
      | cons c₂ cs₂ =>
        simp only [withCrcs, List.zipWith_cons_cons]
        rw [scanIdx, scanIdx, serStored_length_crc r.1 r.2 c₁ c₂]
        exact ih cs₁ cs₂ (by simpa using h₁) (by simpa using h₂) _ _

theorem scanLast_eq_of_fst (recs₁ recs₂ : List StoredRec) (lid : Nat)
    (h : recs₁.map (fun r => r.1) = recs₂.map (fun r => r.1)) :
    scanLast lid recs₁ = scanLast lid recs₂ := by
  induction recs₁ generalizing recs₂ lid with
  | nil =>
    cases recs₂ with
    | nil => rfl
    | cons q qs => simp at h
  | cons r rs ih =>
    cases recs₂ with
    | nil => simp at h
    | cons q qs =>
      simp only [List.map_cons, List.cons.injEq] at h
      rw [scanLast, scanLast, h.1]
      exact ih qs _ h.2

/-- C10: the CRC-32 field is written on append but never verified by scan or
read: two files holding the same records but arbitrary differing checksum
fields recover the identical Offset Index and last_id (hence identical
count), and read_record returns the same result for every id. -/
theorem C10_checksum_not_verified (rs : List (Nat × RecInput))
    (crcs₁ crcs₂ : List Nat)
    (h₁ : crcs₁.length = rs.length) (h₂ : crcs₂.length = rs.length)
    (hnd : (rs.map (fun r => r.1)).Nodup)
    (hwf : ∀ r ∈ rs, r.1 < 18446744073709551616 ∧ wfInput r.2 = true) :
    ∃ idx lid,
      mnemoNew (freshHeader ++ bodyOf (withCrcs rs crcs₁)) =
        .ok ⟨freshHeader ++ bodyOf (withCrcs rs crcs₁), idx, lid⟩ ∧
      mnemoNew (freshHeader ++ bodyOf (withCrcs rs crcs₂)) =
        .ok ⟨freshHeader ++ bodyOf (withCrcs rs crcs₂), idx, lid⟩ ∧
      idx.length = rs.length ∧
      ∀ id, readRecord (freshHeader ++ bodyOf (withCrcs rs crcs₁)) idx id =
        readRecord (freshHeader ++ bodyOf (withCrcs rs crcs₂)) idx id := by
  have hw₁ : ∀ x ∈ withCrcs rs crcs₁, wfStoredFull x := by
    intro x hx
    obtain ⟨ha, hb⟩ := hwf _ (withCrcs_mem rs crcs₁ x hx)
    exact ⟨ha, hb⟩
  have hw₂ : ∀ x ∈ withCrcs rs crcs₂, wfStoredFull x := by
    intro x hx
    obtain ⟨ha, hb⟩ := hwf _ (withCrcs_mem rs crcs₂ x hx)
    exact ⟨ha, hb⟩
  have hs₁ : ∀ x ∈ withCrcs rs crcs₁, wfStored x :=
    fun x hx => wfStoredFull_wfStored x (hw₁ x hx)
  have hs₂ : ∀ x ∈ withCrcs rs crcs₂, wfStored x :=
    fun x hx => wfStoredFull_wfStored x (hw₂ x hx)
  have hnd₁ : ((withCrcs rs crcs₁).map (fun r => r.1)).Nodup := by
    rw [withCrcs_map_fst rs crcs₁ h₁]
    exact hnd
  have hnd₂ : ((withCrcs rs crcs₂).map (fun r => r.1)).Nodup := by
    rw [withCrcs_map_fst rs crcs₂ h₂]
    exact hnd
  have hidx : scanIdx 0 [] (withCrcs rs crcs₂) =
      scanIdx 0 [] (withCrcs rs crcs₁) :=
    scanIdx_withCrcs rs crcs₂ crcs₁ h₂ h₁ 0 []
  have hlast : scanLast 0 (withCrcs rs crcs₂) =
      scanLast 0 (withCrcs rs crcs₁) :=
    scanLast_eq_of_fst _ _ 0
      (by rw [withCrcs_map_fst rs crcs₂ h₂, withCrcs_map_fst rs crcs₁ h₁])
  refine ⟨scanIdx 0 [] (withCrcs rs crcs₁),
    scanLast 0 (withCrcs rs crcs₁), ?_, ?_, ?_, ?_⟩
  · exact mnemoNew_stream _ hs₁
  · have h := mnemoNew_stream (withCrcs rs crcs₂) hs₂
    rw [hidx, hlast] at h
    exact h
  · rw [scanIdx_length _ 0 [] hnd₁ (fun r _ => rfl)]
    rw [withCrcs_length rs crcs₁ h₁]
    simp
  · intro id
    by_cases hmem : id ∈ (withCrcs rs crcs₁).map (fun r => r.1)
    · obtain ⟨x, hx, hfst⟩ := List.mem_map.mp hmem
      obtain ⟨⟨k, hk⟩, hget⟩ := List.mem_iff_get.mp hx
      have hk1 : k < rs.length := by
        rw [withCrcs_length rs crcs₁ h₁] at hk
        exact hk
      have hkc₁ : k < crcs₁.length := by omega
      have hkc₂ : k < crcs₂.length := by omega
      have hk₂ : k < (withCrcs rs crcs₂).length := by
        rw [withCrcs_length rs crcs₂ h₂]
        exact hk1
      have hr₁ := readRecord_stream (withCrcs rs crcs₁) k hk hnd₁ hw₁
      have hr₂ := readRecord_stream (withCrcs rs crcs₂) k hk₂ hnd₂ hw₂
      rw [hidx] at hr₂
      have hg₁ := withCrcs_get rs crcs₁ k hk hk1 hkc₁
      have hg₂ := withCrcs_get rs crcs₂ k hk₂ hk1 hkc₂
      rw [hg₁] at hr₁
      rw [hg₂] at hr₂
      have hid : id = (rs.get ⟨k, hk1⟩).1 := by
        rw [← hfst, ← hget, hg₁]
      rw [hid, hr₁, hr₂]
    · have hne : ∀ r ∈ withCrcs rs crcs₁, r.1 ≠ id := by
        intro r hr e
        exact hmem (List.mem_map.mpr ⟨r, hr, e⟩)
      have hlookup : idxLookup (scanIdx 0 [] (withCrcs rs crcs₁)) id =
          none := by
        rw [scanIdx_lookup_not_mem _ _ _ _ hne]
        rfl
      unfold readRecord
      rw [hlookup]

/-- Witness for C10: the same one-record stream under checksum field 0 and
checksum field 12345. -/
theorem C10_checksum_not_verified_witness :
    ∃ idx lid,
      mnemoNew (freshHeader ++ bodyOf (withCrcs [(1, w1)] [0])) =
        .ok ⟨freshHeader ++ bodyOf (withCrcs [(1, w1)] [0]), idx, lid⟩ ∧
      mnemoNew (freshHeader ++ bodyOf (withCrcs [(1, w1)] [12345])) =
        .ok ⟨freshHeader ++ bodyOf (withCrcs [(1, w1)] [12345]), idx,
          lid⟩ ∧
      idx.length = [(1, w1)].length ∧
      ∀ id, readRecord (freshHeader ++ bodyOf (withCrcs [(1, w1)] [0]))
          idx id =
        readRecord (freshHeader ++ bodyOf (withCrcs [(1, w1)] [12345]))
          idx id :=
  C10_checksum_not_verified [(1, w1)] [0] [12345] rfl rfl
    (by decide) (by decide)

/-- Witness for the amended C3: the concrete mismatched-length query. -/
theorem C3_searchRaw_no_dimension_check_witness :
    searchRaw annModel1 c3Store [0, 0, 0] 5 ≠
      FacadeOutcome.error PyErrKind.argumentError :=
  C3_searchRaw_no_dimension_check annModel1 c3Store [0, 0, 0] 5

end Engram
